import Mathlib

/-! Verification of the Notification Trigger Engine of the OpenCode Discord
Notifier (shallow embedding of the plugin variant in
src/unnamed/part_006, cross-checked against
src/opencode-plugin/opencode-notifier-plugin.js where the two agree).

JavaScript strings are modelled as Lean strings (lists of characters);
JS string indices/lengths are code-point counts here, which agrees with
UTF-16 unit counts on all inputs considered (no astral-plane characters
appear in the source's literals).  JS toLowerCase/toUpperCase is
modelled ASCII-only (Char.toLower/Char.toUpper); none of the claims
exercises case mapping outside ASCII.  Timestamps and millisecond
durations are modelled as Int.  Delivery (the Discord REST calls) is
modelled as always succeeding; the claims under study are about the
pass/suppress decision logic and its state updates.
-/

namespace OpenCodeNotifier

/-- JS whitespace class (the members that can occur in this code base's
inputs): space, tab, CR, LF, vertical tab, form feed, NBSP. -/
def jsWhitespace (c : Char) : Bool :=
  c = ' ' || c = '\t' || c = '\n' || c = '\r' || c = '\x0b' || c = '\x0c' || c = ' '

/-- Remove trailing whitespace from a character list (JS String.trimEnd). -/
def trimEndList (cs : List Char) : List Char :=
  (cs.reverse.dropWhile jsWhitespace).reverse

/-- Remove leading and trailing whitespace (JS String.trim). -/
def trimList (cs : List Char) : List Char :=
  trimEndList (cs.dropWhile jsWhitespace)

/-- Source function truncateText(value, maxChars): the text unchanged if
within budget, else the head cut to maxChars-1 characters with trailing
whitespace trimmed and a single ellipsis appended.  `Math.max(0, maxChars - 1)`
coincides with Nat subtraction. -/
def truncateText (value : String) (maxChars : Nat) : String :=
  if value.length ≤ maxChars then value
  else String.mk (trimEndList (value.data.take (maxChars - 1)) ++ ['…'])

/-- One pass of `String.replace(/\s+/g, " ")`: collapse each maximal
whitespace run to a single space.  The Bool argument records whether the
previous character was part of a whitespace run. -/
def collapseWsAux : List Char → Bool → List Char
  | [], _ => []
  | c :: rest, prevWs =>
    if jsWhitespace c then
      if prevWs then collapseWsAux rest true
      else ' ' :: collapseWsAux rest true
    else c :: collapseWsAux rest false

def collapseWs (cs : List Char) : List Char :=
  collapseWsAux cs false

/-- ASCII lower-casing of a string (models JS toLowerCase on the inputs
of interest). -/
def lowerStr (s : String) : String :=
  String.mk (s.data.map Char.toLower)

/-- ASCII upper-casing of a string (models JS toUpperCase on the inputs
of interest). -/
def upperStr (s : String) : String :=
  String.mk (s.data.map Char.toUpper)

/-- Does the second list start with the first? -/
def listStartsWith : List Char → List Char → Bool
  | [], _ => true
  | _ :: _, [] => false
  | p :: ps, c :: cs => p = c && listStartsWith ps cs

/-- Does some suffix of the second list start with the first
(substring containment, JS String.includes)? -/
def containsSubAux (pat : List Char) : List Char → Bool
  | [] => pat.isEmpty
  | c :: rest => listStartsWith pat (c :: rest) || containsSubAux pat rest

def strContains (s pat : String) : Bool :=
  containsSubAux pat.data s.data

/-- Split a character list on a separator character (JS String.split). -/
def splitOnChar (sep : Char) : List Char → List (List Char)
  | [] => [[]]
  | c :: rest =>
    let tail := splitOnChar sep rest
    if c = sep then [] :: tail
    else
      match tail with
      | [] => [[c]]
      | l :: ls => (c :: l) :: ls

/-- Association-list lookup (JS Map.get). -/
def assocGet (m : List (String × String)) (k : String) : Option String :=
  match m.find? (fun p => p.1 = k) with
  | some p => some p.2
  | none => none

/-- Association-list update (JS Map.set). -/
def assocSet (m : List (String × String)) (k v : String) : List (String × String) :=
  (k, v) :: m.filter (fun p => p.1 ≠ k)

/-- Set insertion on a list (JS Set.add). -/
def setAdd (s : List String) (x : String) : List String :=
  if s.contains x then s else x :: s

/-- Set removal on a list (JS Set.delete). -/
def setRemove (s : List String) (x : String) : List String :=
  s.filter (fun y => y ≠ x)

/-- Source function normalizeSingleLine(value, maxChars): collapse all whitespace runs
to single spaces, trim, then truncate. -/
def normalizeSingleLine (value : String) (maxChars : Nat := 120) : String :=
  truncateText (String.mk (trimList (collapseWs value.data))) maxChars

theorem length_dropWhile_le (p : Char → Bool) (l : List Char) :
    (l.dropWhile p).length ≤ l.length := by
  induction l with
  | nil => simp [List.dropWhile]
  | cons c rest ih =>
    by_cases h : p c
    · simp only [List.dropWhile, h]
      exact Nat.le_succ_of_le ih
    · simp [List.dropWhile, h]

theorem length_trimEndList_le (cs : List Char) :
    (trimEndList cs).length ≤ cs.length := by
  unfold trimEndList
  simpa using length_dropWhile_le jsWhitespace cs.reverse

/-- Characters allowed in the body of an ANSI colour escape sequence
(the regex class in stripAnsi). -/
def ansiBodyChar (c : Char) : Bool :=
  c.isDigit || c = ';'

/-- Scanner state for stripAnsi: outside any candidate match, just past
an unemitted ESC, or inside a candidate sequence body (the body
characters seen so far, reversed). -/
inductive AnsiMode where
  | normal
  | sawEsc
  | inBody (acc : List Char)

/-- One-pass scanner for `stripAnsi(value)`: delete every match of the
ANSI colour-sequence regex (ESC, an opening bracket, digits/semicolons,
a terminating m).  A match can only start at an ESC character; a
candidate that fails is emitted verbatim and scanning resumes, matching
the global-replace semantics. -/
def stripAnsiAux : AnsiMode → List Char → List Char
  | .normal, [] => []
  | .sawEsc, [] => ['\x1b']
  | .inBody acc, [] => '\x1b' :: '[' :: acc.reverse
  | .normal, c :: rest =>
    if c = '\x1b' then stripAnsiAux .sawEsc rest
    else c :: stripAnsiAux .normal rest
  | .sawEsc, c :: rest =>
    if c = '[' then stripAnsiAux (.inBody []) rest
    else if c = '\x1b' then '\x1b' :: stripAnsiAux .sawEsc rest
    else '\x1b' :: c :: stripAnsiAux .normal rest
  | .inBody acc, c :: rest =>
    if ansiBodyChar c then stripAnsiAux (.inBody (c :: acc)) rest
    else if c = 'm' then stripAnsiAux .normal rest
    else if c = '\x1b' then ('\x1b' :: '[' :: acc.reverse) ++ stripAnsiAux .sawEsc rest
    else ('\x1b' :: '[' :: acc.reverse) ++ (c :: stripAnsiAux .normal rest)

def stripAnsi (cs : List Char) : List Char :=
  stripAnsiAux .normal cs

/-- CRLF to LF conversion (the first replace in normalizeText). -/
def replaceCrLf : List Char → List Char
  | '\r' :: '\n' :: rest => '\n' :: replaceCrLf rest
  | c :: rest => c :: replaceCrLf rest
  | [] => []

/-- Space/tab class (the character class before a newline in
normalizeText's second replace). -/
def spaceOrTab (c : Char) : Bool :=
  c = ' ' || c = '\t'

/-- Delete runs of spaces/tabs that immediately precede a newline:
every line except the final segment has its space/tab tail trimmed. -/
def stripWsBeforeNl (cs : List Char) : List Char :=
  let segments := splitOnChar '\n' cs
  match segments.reverse with
  | [] => []
  | last :: initRev =>
    let trimmed := (initRev.reverse.map (fun l => (l.reverse.dropWhile spaceOrTab).reverse)) ++ [last]
    (trimmed.intersperse ['\n']).flatten

/-- Collapse runs of three or more newlines to exactly two (the third
replace in normalizeText).  The counter records how many newlines of the
current run have been seen. -/
def collapseNlAux : List Char → Nat → List Char
  | [], _ => []
  | c :: rest, k =>
    if c = '\n' then
      if k < 2 then '\n' :: collapseNlAux rest (k + 1)
      else collapseNlAux rest (k + 1)
    else c :: collapseNlAux rest 0

/-- Source function normalizeText(value): strip ANSI escapes, CRLF to
LF, trim space/tab before newlines, collapse 3+ newlines to 2, trim. -/
def normalizeText (value : String) : String :=
  String.mk (trimList (collapseNlAux (stripWsBeforeNl (replaceCrLf (stripAnsi value.data))) 0))

/-- Source function buildTextDedupeKey(value): normalize, collapse whitespace, trim,
and keep the first 800 characters. -/
def buildTextDedupeKey (value : String) : String :=
  String.mk ((trimList (collapseWs (normalizeText value).data)).take 800)

/-- Source function isPlaceholder(value): blank, or contains one of the setup
placeholder markers (after upper-casing). -/
def isPlaceholder (value : String) : Bool :=
  let text := String.mk (trimList value.data)
  if text = "" then true
  else
    let upper := upperStr text
    strContains upper "PUT_YOUR" || strContains upper "YOUR_" || strContains upper "DISCORD_BOT_TOKEN"

structure DiscordTarget where
  type : String
  id : String
deriving DecidableEq, Repr

structure DiscordConfig where
  botToken : String
  targets : List DiscordTarget
deriving DecidableEq, Repr

structure TriggerConfig where
  notifyOnSessionIdle : Bool
  notifyOnStatusIdle : Bool
  cooldownMs : Int
  dedupeWindowMs : Int
  requireAssistantMessage : Bool
deriving DecidableEq, Repr

/-- The slice of the normalized runtime configuration that the trigger
engine reads. -/
structure RuntimeConfig where
  enabled : Bool
  trigger : TriggerConfig
  discord : DiscordConfig
deriving DecidableEq, Repr

/-- Source function hasUsableDiscordConfig(config): non-placeholder credential and a
non-empty target list whose ids are all non-placeholder. -/
def hasUsableDiscordConfig (config : RuntimeConfig) : Bool :=
  if isPlaceholder config.discord.botToken then false
  else if config.discord.targets.isEmpty then false
  else config.discord.targets.all (fun t => !isPlaceholder t.id)

inductive TerminationKind where
  | cancelled
  | interrupted
  | failed
deriving DecidableEq, Repr

/-- The cancellation keyword tier of classifyTerminationKind (the last
two entries are the source file's literal bytes for its Korean
keywords). -/
def cancellationKeywords : List String :=
  ["cancel", "cancelled", "canceled", "abort", "aborted",
   "Ï∑®ÏÜå"]

/-- The interruption/stop keyword tier of classifyTerminationKind. -/
def interruptionKeywords : List String :=
  ["interrupt", "interrupted", "stop", "stopped", "terminate", "terminated",
   "killed", "halt",
   "Ï§ëÎã®", "Î©àÏ∂§"]

/-- The generic failure keyword tier of classifyTerminationKind. -/
def failureKeywords : List String :=
  ["fail", "failed", "failure", "error", "errored", "exception", "timeout",
   "timed out", "crash", "crashed", "panic", "fatal", "denied", "rejected",
   "Ïã§Ìå®", "Ïò§Î•ò",
   "ÏòàÏô∏",
   "ÌÉÄÏûÑÏïÑÏõÉ",
   "Í±∞Î∂Ä"]

/-- An unanchored alternation of literal keywords matches iff one of the
keywords occurs as a substring. -/
def matchesAnyKeyword (token : String) (keywords : List String) : Bool :=
  keywords.any (fun k => strContains token k)

/-- Source function classifyTerminationKind(value): lower-case the value and test the
three keyword tiers in priority order. -/
def classifyTerminationKind (value : String) : Option TerminationKind :=
  let token := lowerStr value
  if token = "" then none
  else if matchesAnyKeyword token cancellationKeywords then some .cancelled
  else if matchesAnyKeyword token interruptionKeywords then some .interrupted
  else if matchesAnyKeyword token failureKeywords then some .failed
  else none

/-- The fixed placeholder titles of isGenericSessionTitle (the first two
entries are the source file's literal bytes for its Korean titles). -/
def genericTitleLiterals : List String :=
  ["ÏÉà ÏûëÏóÖ", "ÏÉà ÏÑ∏ÏÖò",
   "new task", "new session", "new chat", "untitled"]

/-- Consume a literal from the front of the input, returning the rest. -/
def expectLit : List Char → List Char → Option (List Char)
  | [], cs => some cs
  | p :: ps, c :: cs => if p = c then expectLit ps cs else none
  | _ :: _, [] => none

/-- Consume exactly n decimal digits. -/
def expectDigits : Nat → List Char → Option (List Char)
  | 0, cs => some cs
  | n + 1, c :: cs => if c.isDigit then expectDigits n cs else none
  | _ + 1, [] => none

/-- Consume one given character. -/
def expectChar (ch : Char) : List Char → Option (List Char)
  | c :: cs => if c = ch then some cs else none
  | [] => none

/-- Matcher for the anchored date-suffixed generic-title regex of
isGenericSessionTitle, applied to the already lower-cased normalized
title: an alternation of two session words, optional whitespace around
a dash, then an ISO timestamp shape ending in z. -/
def genericDateTitleMatch (cs : List Char) : Bool :=
  let head :=
    match expectLit "new session".data cs with
    | some r => some r
    | none => expectLit "child session".data cs
  let r := head.bind (fun r => expectChar '-' (r.dropWhile jsWhitespace))
  let r := r.bind (fun r => expectDigits 4 (r.dropWhile jsWhitespace))
  let r := r.bind (expectChar '-')
  let r := r.bind (expectDigits 2)
  let r := r.bind (expectChar '-')
  let r := r.bind (expectDigits 2)
  let r := r.bind (expectChar 't')
  let r := r.bind (expectDigits 2)
  let r := r.bind (expectChar ':')
  let r := r.bind (expectDigits 2)
  let r := r.bind (expectChar ':')
  let r := r.bind (expectDigits 2)
  let r := r.bind (expectChar '.')
  let r := r.bind (expectDigits 3)
  let r := r.bind (expectChar 'z')
  match r with
  | some rest => rest.isEmpty
  | none => false

/-- Source function isGenericSessionTitle(value): blank, one of the fixed placeholder
strings, or a date-suffixed placeholder title. -/
def isGenericSessionTitle (value : String) : Bool :=
  let normalized := lowerStr (normalizeSingleLine value 200)
  if normalized = "" then true
  else if genericTitleLiterals.contains normalized then true
  else genericDateTitleMatch normalized.data

/-- Source function shouldApplySessionTitle(current, next): the monotonic-improvement
rule for session titles, transcribed branch for branch. -/
def shouldApplySessionTitle (currentTitle nextTitle : String) : Bool :=
  let nextNormalized := normalizeSingleLine nextTitle 200
  if nextNormalized = "" then false
  else
    let nextIsGeneric := isGenericSessionTitle nextNormalized
    let currentNormalized := normalizeSingleLine currentTitle 200
    if currentNormalized = "" then !nextIsGeneric
    else if currentNormalized = nextNormalized then false
    else
      let currentIsGeneric := isGenericSessionTitle currentNormalized
      if currentIsGeneric && nextIsGeneric then false
      else if !currentIsGeneric && nextIsGeneric then false
      else true

/-- Regex word character class. -/
def isWordChar (c : Char) : Bool :=
  c.isAlpha || c.isDigit || c = '_'

/-- A word boundary sits after a just-consumed character iff the
word-ness of that character and of the next input character differ
(end of input counts as non-word). -/
def wordBoundaryAfter (last : Char) (rest : List Char) : Bool :=
  match rest with
  | [] => isWordChar last
  | c :: _ => isWordChar last != isWordChar c

/-- Does a predicate on suffixes hold at some position of the input? -/
def anyTail (p : List Char → Bool) : List Char → Bool
  | [] => p []
  | c :: rest => p (c :: rest) || anyTail p rest

/-- Backtracking matcher for the regex fragment of up to two literal
stars followed by a word boundary, entered just after a keyword whose
final character is `last`. -/
def starBoundary (last : Char) (rest : List Char) : Bool :=
  wordBoundaryAfter last rest ||
  (match rest with
   | '*' :: r1 =>
     wordBoundaryAfter '*' r1 ||
     (match r1 with
      | '*' :: r2 => wordBoundaryAfter '*' r2
      | _ => false)
   | _ => false)

/-- Matcher for the multiline line-start hard markers of
isIntermediateAnalysisMessage: at the start of some line, optional
whitespace, the keyword, up to two stars and a word boundary. -/
def lineStartKeywordMarker (keyword : String) (low : List Char) : Bool :=
  (splitOnChar '\n' low).any fun line =>
    let t := line.dropWhile jsWhitespace
    match expectLit keyword.data t with
    | some rest => starBoundary (keyword.data.getLastD '?') rest
    | none => false

/-- The at-mention name character class of the subagent patterns
(applied to lower-cased text). -/
def nameClassChar (c : Char) : Bool :=
  c.isLower || c.isDigit || c = '_' || c = '-'

/-- Matcher, at one position, for the unanchored at-mention-space-subagent
hard marker: an at sign, a non-empty name run, whitespace, the word
subagent. -/
def subagentMentionAt (cs : List Char) : Bool :=
  match cs with
  | '@' :: rest =>
    let name := rest.takeWhile nameClassChar
    if name.isEmpty then false
    else
      let afterName := rest.drop name.length
      let ws := afterName.takeWhile jsWhitespace
      if ws.isEmpty then false
      else listStartsWith "subagent".data (afterName.drop ws.length)
  | _ => false

/-- Matcher, at one position, for the parenthesised subagent-title
pattern of isSubagentSessionTitle. -/
def subagentParenAt (cs : List Char) : Bool :=
  match cs with
  | '(' :: '@' :: rest =>
    let name := rest.takeWhile nameClassChar
    if name.isEmpty then false
    else
      let afterName := rest.drop name.length
      let ws := afterName.takeWhile jsWhitespace
      if ws.isEmpty then false
      else
        match expectLit "subagent".data (afterName.drop ws.length) with
        | some (')' :: _) => true
        | _ => false
  | _ => false

/-- A word boundary before the character `c`, given the previous input
character (none at the start of the input, which counts as non-word). -/
def wordBoundaryBefore (prev : Option Char) (c : Char) : Bool :=
  match prev with
  | none => isWordChar c
  | some p => isWordChar p != isWordChar c

/-- Scan all positions of the input, tracking the previous character. -/
def scanWithPrev (p : Option Char → List Char → Bool) : Option Char → List Char → Bool
  | prev, [] => p prev []
  | prev, c :: rest => p prev (c :: rest) || scanWithPrev p (some c) rest

/-- Matcher, at one position, for the word-bounded at-mention pattern of
isSubagentSessionTitle: a word boundary (so a word character must
precede the at sign), the at sign, a non-empty name run, and a word
boundary placed by backtracking inside the run. -/
def atMentionBoundedAt (prev : Option Char) (cs : List Char) : Bool :=
  match cs with
  | '@' :: rest =>
    wordBoundaryBefore prev '@' &&
    (let run := rest.takeWhile nameClassChar
     let tail := rest.drop run.length
     (List.range run.length).any fun j =>
       match (run.take (j + 1)).getLast? with
       | some last => wordBoundaryAfter last ((run.drop (j + 1)) ++ tail)
       | none => false)
  | _ => false

/-- Matcher for a word-bounded literal word (a word made of word
characters only, such as subagent). -/
def containsBoundedWordAt (word : List Char) (prev : Option Char) (cs : List Char) : Bool :=
  match cs with
  | [] => false
  | c :: rest =>
    (match prev with
     | none => true
     | some p => !isWordChar p) &&
    listStartsWith word (c :: rest) &&
    (match (c :: rest).drop word.length with
     | [] => true
     | d :: _ => !isWordChar d)

def containsBoundedWord (word : String) (cs : List Char) : Bool :=
  scanWithPrev (containsBoundedWordAt word.data) none cs

/-- The word-bounded at-mention test used by isSubagentSessionTitle. -/
def containsAtMentionBounded (cs : List Char) : Bool :=
  scanWithPrev atMentionBoundedAt none cs

/-- Source function isSubagentSessionTitle(value): the parenthesised subagent pattern,
or a word-bounded at-mention together with the word subagent. -/
def isSubagentSessionTitle (value : String) : Bool :=
  let title := normalizeSingleLine value 240
  if title = "" then false
  else
    let low := (lowerStr title).data
    if anyTail subagentParenAt low then true
    else containsAtMentionBounded low && containsBoundedWord "subagent" low

/-- Matcher, at one position, for a keyword followed by optional
whitespace and a colon (the shape of two soft markers). -/
def kwWsColonAt (kw : List Char) (cs : List Char) : Bool :=
  match expectLit kw cs with
  | some r =>
    match r.dropWhile jsWhitespace with
    | ':' :: _ => true
    | _ => false
  | none => false

/-- Backtracking matcher for up to two stars, optional whitespace and a
colon (the tail of two soft markers). -/
def starsWsColon (r : List Char) : Bool :=
  kwWsColonAt [] r ||
  (match r with
   | '*' :: r1 =>
     kwWsColonAt [] r1 ||
     (match r1 with
      | '*' :: r2 => kwWsColonAt [] r2
      | _ => false)
   | _ => false)

/-- Matcher, at one position, for the opencode session-id soft marker:
the word opencode, optional whitespace around a dash, the ses prefix and
at least one alphanumeric character. -/
def opencodeSesAt (cs : List Char) : Bool :=
  match expectLit "opencode".data cs with
  | some r =>
    match expectChar '-' (r.dropWhile jsWhitespace) with
    | some r2 =>
      match expectLit "ses_".data (r2.dropWhile jsWhitespace) with
      | some r3 => !(r3.takeWhile (fun c => c.isLower || c.isDigit)).isEmpty
      | none => false
    | none => false
  | none => false

/-- The hard-marker tier of isIntermediateAnalysisMessage: any single
match classifies the text as intermediate noise. -/
def hardMarkerHit (low : List Char) : Bool :=
  containsSubAux "[search-mode]".data low ||
  containsSubAux "[analyze-mode]".data low ||
  containsSubAux "<analysis>".data low ||
  containsSubAux "<results>".data low ||
  containsSubAux "<files>".data low ||
  containsSubAux "<answer>".data low ||
  lineStartKeywordMarker "goal" low ||
  lineStartKeywordMarker "definition of done" low ||
  lineStartKeywordMarker "plan" low ||
  anyTail subagentMentionAt low ||
  containsSubAux "launch multiple background agents".data low ||
  containsSubAux "do not edit files; rely on repository read/search only".data low

/-- The soft-marker hit count of isIntermediateAnalysisMessage. -/
def softMarkerHits (low : List Char) : Nat :=
  ([anyTail (kwWsColonAt "literal request".data) low,
    anyTail (fun r =>
      match expectLit "actual need".data r with
      | some r2 => starsWsColon r2
      | none => false) low,
    anyTail (fun r =>
      match expectLit "success looks like".data r with
      | some r2 => starsWsColon r2
      | none => false) low,
    anyTail opencodeSesAt low,
    containsSubAux "maximize search effort".data low]).count true

/-- Source function isIntermediateAnalysisMessage(value): one hard marker, or at least
two independent soft markers, classifies the normalized text as
intermediate analysis noise. -/
def isIntermediateAnalysisMessage (value : String) : Bool :=
  let text := normalizeText value
  if text = "" then false
  else
    let low := (lowerStr text).data
    if hardMarkerHit low then true
    else softMarkerHits low ≥ 2

/-- The positive interrupt keyword literals of
isLikelyUserInterruptPrompt (the Korean entries are the source file's
literal bytes). -/
def interruptPositiveLiterals : List String :=
  ["input", "required", "enter", "token", "choose", "choice", "select",
   "confirm", "permission", "approve", "approval", "respond", "reply",
   "prompt", "question", "manual",
   "ÏäπÏù∏", "ÏÑ†ÌÉù", "ÏûÖÎ†•", "ÌÜ†ÌÅ∞", "Í∂åÌïú", "ÌôïÏù∏", "ÏùëÎãµ", "Ïù∏Ï¶ù"]

/-- The negative (transient-infra) keyword literals of
isLikelyUserInterruptPrompt. -/
def interruptNegativeLiterals : List String :=
  ["rate limit", "quota", "429", "network", "timeout", "timed out",
   "connection", "econn", "dns", "service unavailable", "backoff",
   "ÏùºÏãú", "ÎÑ§Ìä∏ÏõåÌÅ¨", "ÌÉÄÏûÑÏïÑÏõÉ", "Ïó∞Í≤∞", "ÌïúÎèÑ"]

/-- Matcher, at one position, for the api-key positive pattern: the
letters api, optionally one whitespace/underscore/dash, then key. -/
def apiKeyAt (cs : List Char) : Bool :=
  match expectLit "api".data cs with
  | some r =>
    listStartsWith "key".data r ||
    (match r with
     | c :: r2 => (jsWhitespace c || c = '_' || c = '-') && listStartsWith "key".data r2
     | [] => false)
  | none => false

/-- Source function isLikelyUserInterruptPrompt(value): a positive interrupt keyword
present and no transient-infrastructure keyword present. -/
def isLikelyUserInterruptPrompt (value : String) : Bool :=
  let text := lowerStr value
  if text = "" then false
  else
    (matchesAnyKeyword text interruptPositiveLiterals || anyTail apiKeyAt text.data) &&
    !matchesAnyKeyword text interruptNegativeLiterals

/-- Source function pickNormalizedString(candidates, maxChars): the first candidate
that is a string and normalizes to something non-empty; none counts as a
non-string candidate and is skipped. -/
def pickNormalizedString (candidates : List (Option String)) (maxChars : Nat := 120) : String :=
  match candidates with
  | [] => ""
  | none :: rest => pickNormalizedString rest maxChars
  | some c :: rest =>
    let normalized := normalizeSingleLine c maxChars
    if normalized = "" then pickNormalizedString rest maxChars else normalized

/-- Source function isDelegationToolName(value): the fixed set of delegation tools. -/
def isDelegationToolName (value : String) : Bool :=
  let tool := lowerStr (String.mk (trimList value.data))
  if tool = "" then false
  else
    tool = "task" || tool = "delegate_task" || tool = "call_omo_agent" ||
    tool = "background_task"

/-- Matcher for the junior-agent pattern on message.updated assistant
events: the literal dash-junior followed by a word boundary, anywhere in
the lower-cased agent name. -/
def juniorAgentAt (cs : List Char) : Bool :=
  match expectLit "-junior".data cs with
  | some rest => wordBoundaryAfter 'r' rest
  | none => false

def isJuniorAgentName (value : String) : Bool :=
  anyTail juniorAgentAt (lowerStr value).data

inductive InterruptKind where
  | permission_required
  | input_required
deriving DecidableEq, Repr

/-- A pending interrupt notice (kind, originating event type, detail). -/
structure InterruptNotice where
  kind : InterruptKind
  eventType : String
  detail : String
deriving DecidableEq, Repr

/-- A pending termination notice (kind, normalized detail). -/
structure TerminationNotice where
  kind : TerminationKind
  detail : String
deriving DecidableEq, Repr

/-- An inbound plugin event, flattened to the property paths the engine
reads (a missing optional field models a property that is absent or not
a string).  Field correspondence, in source order of use:
  type                 event.type
  titleCandidates      the ordered candidate list of extractSessionTitle
  statusType           properties.status.type
  statusReason         properties.status.reason
  statusMessage        properties.status.message
  reason               properties.reason
  errorType            properties.error.type
  errorReason          properties.error.reason
  permissionStr        properties.permission, when it is a string
  requestPermission    properties.request.permission
  permissionName       properties.permission.name
  permissionPermission properties.permission.permission
  permissionType       properties.permission.type
  patternStr           properties.pattern
  permissionPattern    properties.permission.pattern
  requestPattern       properties.request.pattern
  promptMessage        properties.prompt.message
  promptReason         properties.prompt.reason
  interruptMessage     properties.interrupt.message
  interruptReason      properties.interrupt.reason
  infoRole             properties.info.role
  infoId               properties.info.id
  infoAgent            properties.info.agent
  infoParentID         properties.info.parentID
  partType             properties.part.type
  partMessageID        properties.part.messageID
  partText             properties.part.text
  partTool             properties.part.tool
  partCallID           properties.part.callID
  partStateStatus      properties.part.state.status
  partId               properties.part.id -/
structure Event where
  type : String
  titleCandidates : List (Option String) := []
  statusType : Option String := none
  statusReason : Option String := none
  statusMessage : Option String := none
  reason : Option String := none
  errorType : Option String := none
  errorReason : Option String := none
  permissionStr : Option String := none
  requestPermission : Option String := none
  permissionName : Option String := none
  permissionPermission : Option String := none
  permissionType : Option String := none
  patternStr : Option String := none
  permissionPattern : Option String := none
  requestPattern : Option String := none
  promptMessage : Option String := none
  promptReason : Option String := none
  interruptMessage : Option String := none
  interruptReason : Option String := none
  infoRole : Option String := none
  infoId : Option String := none
  infoAgent : Option String := none
  infoParentID : Option String := none
  partType : Option String := none
  partMessageID : Option String := none
  partText : Option String := none
  partTool : Option String := none
  partCallID : Option String := none
  partStateStatus : Option String := none
  partId : Option String := none
  partAgent : Option String := none
deriving DecidableEq, Repr

/-- Source function extractSessionTitle(event): the first non-generic normalized
candidate, else the first generic one as fallback. -/
def extractSessionTitleAux (candidates : List (Option String)) (genericFallback : String) : String :=
  match candidates with
  | [] => genericFallback
  | none :: rest => extractSessionTitleAux rest genericFallback
  | some value :: rest =>
    let normalized := normalizeSingleLine value 120
    if normalized = "" then extractSessionTitleAux rest genericFallback
    else if !isGenericSessionTitle normalized then normalized
    else if genericFallback = "" then extractSessionTitleAux rest normalized
    else extractSessionTitleAux rest genericFallback

def extractSessionTitle (e : Event) : String :=
  extractSessionTitleAux e.titleCandidates ""

/-- Source function extractTerminationNotice(event): scan the candidate fields in
order; the first whose classification is a termination kind produces the
notice. -/
def extractTerminationNoticeAux (candidates : List (Option String)) : Option TerminationNotice :=
  match candidates with
  | [] => none
  | none :: rest => extractTerminationNoticeAux rest
  | some candidate :: rest =>
    match classifyTerminationKind candidate with
    | some kind => some { kind, detail := normalizeSingleLine candidate 60 }
    | none => extractTerminationNoticeAux rest

def extractTerminationNotice (e : Event) : Option TerminationNotice :=
  extractTerminationNoticeAux
    [e.statusType, e.statusReason, e.reason, e.errorType, e.errorReason, some e.type]

/-- Join the non-empty entries with a separator (the filter-join in the
permission detail construction). -/
def joinNonEmpty (sep : String) (parts : List String) : String :=
  match parts.filter (fun p => p ≠ "") with
  | [] => ""
  | p :: rest => rest.foldl (fun acc q => acc ++ sep ++ q) p

/-- Source function extractInterruptNotice(event), transcribed branch for branch:
permission events, the session.status retry heuristic, and explicit
input-required event types. -/
def extractInterruptNotice (e : Event) : Option InterruptNotice :=
  let eventType := normalizeSingleLine e.type 120
  let eventTypeLower := lowerStr eventType
  if eventTypeLower = "" then none
  else if eventTypeLower = "permission.asked" || eventTypeLower = "permission.requested" then
    let permissionName :=
      pickNormalizedString
        [e.permissionStr, e.requestPermission, e.permissionName,
         e.permissionPermission, e.permissionType] 80
    let permissionPattern :=
      pickNormalizedString [e.patternStr, e.permissionPattern, e.requestPattern] 120
    let detail := joinNonEmpty " | " [permissionName, permissionPattern]
    some { kind := .permission_required, eventType, detail }
  else
    let retryNotice :=
      if eventTypeLower = "session.status" && e.statusType = some "retry" then
        let statusMessage := pickNormalizedString [e.statusMessage, e.statusReason] 180
        if isLikelyUserInterruptPrompt statusMessage then
          some { kind := .input_required, eventType, detail := statusMessage : InterruptNotice }
        else none
      else none
    match retryNotice with
    | some n => some n
    | none =>
      let explicitInterruptEvent :=
        strContains eventTypeLower "input.required" ||
        strContains eventTypeLower "input.requested" ||
        strContains eventTypeLower "interrupt.required" ||
        strContains eventTypeLower "question.required"
      if explicitInterruptEvent then
        let detail :=
          pickNormalizedString
            [e.promptMessage, e.promptReason, e.interruptMessage,
             e.interruptReason, e.reason, e.statusMessage] 180
        some { kind := .input_required, eventType, detail }
      else none

/-- One entry of the sub-task tracking map. -/
structure SubtaskInfo where
  status : String
  tool : String
deriving DecidableEq, Repr

/-- Per-session mutable state (`createSessionState`), with the fields
the trigger engine reads and writes.  JS Sets and Maps are association
lists; nullable ids are Options; timestamps are Int milliseconds.
The delivery-side fields (statusMessageByTarget, progressUpdateChain)
carry no trigger-decision content and are not modelled. -/
structure SessionState where
  sessionID : String
  isChildSession : Bool := false
  sessionTitle : String := ""
  assistantMessageIds : List String := []
  userMessageIds : List String := []
  mutedAssistantMessageIds : List String := []
  delegationMessageIds : List String := []
  textByMessageId : List (String × String) := []
  subtaskByCallId : List (String × SubtaskInfo) := []
  lastAssistantMessageId : Option String := none
  lastAssistantText : String := ""
  currentRequestId : Option String := none
  currentRequestPreview : String := ""
  currentRequestStartedAt : Int := 0
  lastProgressSnapshotKey : String := ""
  lastNotifiedMessageId : Option String := none
  lastNotifiedTextKey : String := ""
  lastNotifiedAt : Int := 0
  responseStartedAt : Int := 0
  lastAssistantUpdatedAt : Int := 0
  waitingForInputReady : Bool := false
  pendingTerminationNotice : Option TerminationNotice := none
  pendingInterruptNotice : Option InterruptNotice := none
deriving DecidableEq, Repr

/-- Source function isSubagentSessionState(state). -/
def isSubagentSessionState (s : SessionState) : Bool :=
  if s.isChildSession then true
  else isSubagentSessionTitle s.sessionTitle

/-- Source function resetCurrentRequestState(state). -/
def resetCurrentRequestState (s : SessionState) : SessionState :=
  { s with
      currentRequestId := none
      currentRequestPreview := ""
      currentRequestStartedAt := 0
      subtaskByCallId := []
      userMessageIds := []
      lastProgressSnapshotKey := "" }

/-- Source function finalizeCurrentRequestStatus: a terminal progress upsert followed
by a request-state reset; only the state reset is decision-relevant. -/
def finalizeCurrentRequestStatus (s : SessionState) : SessionState :=
  if s.currentRequestId.isSome then resetCurrentRequestState s else s

/-- Source function isIdleNotificationTrigger(triggerKind). -/
def isIdleNotificationTrigger (triggerKind : String) : Bool :=
  let token := lowerStr (normalizeSingleLine triggerKind 60)
  token = "session.idle" || token = "session.status: idle"

def interruptKindStr : InterruptKind → String
  | .permission_required => "permission_required"
  | .input_required => "input_required"

def terminationKindStr : TerminationKind → String
  | .cancelled => "cancelled"
  | .interrupted => "interrupted"
  | .failed => "failed"

/-- The content-dedup key an interrupt notice produces in notifyIfReady. -/
def interruptTextKey (i : InterruptNotice) : String :=
  "interrupt:" ++ interruptKindStr i.kind ++ ":" ++ i.eventType ++ ":" ++ i.detail

/-- The content-dedup key a termination notice produces in notifyIfReady. -/
def terminationTextKey (t : TerminationNotice) : String :=
  "termination:" ++ terminationKindStr t.kind ++ ":" ++ t.detail

/-- What kind of notification a delivery carries: an interrupt notice, a
termination notice, or a plain ready notification. -/
inductive NotificationKind where
  | interrupt (n : InterruptNotice)
  | termination (n : TerminationNotice)
  | ready
deriving DecidableEq, Repr

/-- A record of one delivered notification (delivery is modelled as
always succeeding). -/
structure SentNotification where
  kind : NotificationKind
  messageId : Option String
  textKey : String
  sentAt : Int
  triggerKind : String
deriving DecidableEq, Repr

/-- The content-dedup key notifyIfReady computes at its decision point:
the interrupt notice's key when one is pending, else the termination
notice's key when one is pending, else the hash of the candidate text. -/
def notifyCurrentTextKey (s : SessionState) : String :=
  match s.pendingInterruptNotice with
  | some i => interruptTextKey i
  | none =>
    match s.pendingTerminationNotice with
    | some t => terminationTextKey t
    | none => buildTextDedupeKey s.lastAssistantText

/-- The kind of notification notifyIfReady builds: the pending interrupt
notice takes priority, then the pending termination notice, then plain
ready. -/
def notifyKind (s : SessionState) : NotificationKind :=
  match s.pendingInterruptNotice with
  | some i => .interrupt i
  | none =>
    match s.pendingTerminationNotice with
    | some t => .termination t
    | none => .ready

/-- The suppression guards of notifyIfReady beyond its three initial
short-circuits, one disjunct per source guard in source order: not
ready and nothing pending; cooldown unelapsed (interrupts exempt);
assistant message required but absent; candidate text is intermediate
noise; candidate message already notified; candidate message delegated;
dedup key repeated within the dedupe window.  In the source each guard
returns separately, but every one of these branches performs the same
state effect, so they are modelled as one disjunction. -/
def notifySuppressed (c : RuntimeConfig) (s : SessionState) (now : Int) : Prop :=
  (s.waitingForInputReady = false ∧ s.pendingTerminationNotice = none ∧
    s.pendingInterruptNotice = none) ∨
  (s.pendingInterruptNotice = none ∧ now - s.lastNotifiedAt < c.trigger.cooldownMs) ∨
  (s.pendingTerminationNotice = none ∧ s.pendingInterruptNotice = none ∧
    c.trigger.requireAssistantMessage = true ∧ s.lastAssistantMessageId = none) ∨
  (s.pendingTerminationNotice = none ∧ s.pendingInterruptNotice = none ∧
    isIntermediateAnalysisMessage s.lastAssistantText = true) ∨
  (s.pendingTerminationNotice = none ∧ s.pendingInterruptNotice = none ∧
    s.lastAssistantMessageId ≠ none ∧
    s.lastAssistantMessageId = s.lastNotifiedMessageId) ∨
  (s.pendingTerminationNotice = none ∧ s.pendingInterruptNotice = none ∧
    (match s.lastAssistantMessageId with
     | some mid => s.delegationMessageIds.contains mid
     | none => false) = true) ∨
  (notifyCurrentTextKey s ≠ "" ∧ notifyCurrentTextKey s = s.lastNotifiedTextKey ∧
    now - s.lastNotifiedAt < c.trigger.dedupeWindowMs)

instance (c : RuntimeConfig) (s : SessionState) (now : Int) :
    Decidable (notifySuppressed c s now) :=
  inferInstanceAs (Decidable (_ ∨ _ ∨ _ ∨ _ ∨ _ ∨ _ ∨ _))

/-- The state effect shared by all suppression branches of
notifyIfReady: finalize the open request's progress bookkeeping when a
request is open, no interrupt is pending, and the attempt came from a
termination notice or an idle trigger. -/
def notifyFinalizeIf (s : SessionState) (triggerKind : String) : SessionState :=
  if s.currentRequestId.isSome = true ∧ s.pendingInterruptNotice = none ∧
     (s.pendingTerminationNotice.isSome = true ∨
       isIdleNotificationTrigger triggerKind = true) then
    finalizeCurrentRequestStatus s
  else s

/-- The send path of notifyIfReady: build and deliver the notification
(delivery modelled as succeeding), finalize the open request unless the
notification is an interrupt, and update the dedup/cooldown bookkeeping,
clearing both pending notices and the readiness flag. -/
def notifySendUpdate (s : SessionState) (now : Int) (triggerKind : String) :
    SessionState × Option SentNotification :=
  let currentTextKey := notifyCurrentTextKey s
  let sent : SentNotification :=
    { kind := notifyKind s, messageId := s.lastAssistantMessageId,
      textKey := currentTextKey, sentAt := now, triggerKind }
  let s1 := if s.pendingInterruptNotice.isSome then s else finalizeCurrentRequestStatus s
  ({ s1 with
      lastNotifiedAt := now
      lastNotifiedMessageId := s.lastAssistantMessageId
      lastNotifiedTextKey := currentTextKey
      responseStartedAt := 0
      lastAssistantUpdatedAt := 0
      waitingForInputReady := false
      pendingTerminationNotice := none
      pendingInterruptNotice := none }, some sent)

/-- Source function notifyIfReady(state, triggerKind) as a pure decision function:
given the configuration, the session state at the decision point and the
current time, produce the updated state and the delivered notification,
if any.  Progress-status upserts (network-side message edits) are
identities on the modelled state. -/
def notifyIfReady (config : RuntimeConfig) (s : SessionState) (now : Int) (triggerKind : String) :
    SessionState × Option SentNotification :=
  if config.enabled = false then (s, none)
  else if hasUsableDiscordConfig config = false then (s, none)
  else if isSubagentSessionState s = true ∧ s.pendingInterruptNotice = none then (s, none)
  else if notifySuppressed config s now then (notifyFinalizeIf s triggerKind, none)
  else notifySendUpdate s now triggerKind

/-- The state mutation performed by the event hook when an interrupt
notice is extracted, before notifyIfReady is called on it. -/
def interruptArm (s : SessionState) (n : InterruptNotice) : SessionState :=
  { s with pendingInterruptNotice := some n, waitingForInputReady := true }

/-- The state mutation performed by the event hook when a termination
notice is extracted, before notifyIfReady is called on it. -/
def terminationArm (s : SessionState) (t : TerminationNotice) : SessionState :=
  { s with
      pendingTerminationNotice := some t
      pendingInterruptNotice := none
      waitingForInputReady := true }

/-- Title application at the top of the event hook. -/
def applySessionTitle (s : SessionState) (e : Event) : SessionState :=
  let sessionTitle := extractSessionTitle e
  if shouldApplySessionTitle s.sessionTitle sessionTitle then
    { s with sessionTitle := sessionTitle }
  else s

/-- Does the event carry a non-blank parent session id? -/
def hasNonBlankParentID (e : Event) : Bool :=
  match e.infoParentID with
  | some p => !(trimList p.data).isEmpty
  | none => false

/-- Child-session marking from structural parent linkage. -/
def markChildFromParentID (s : SessionState) (e : Event) : SessionState :=
  if (e.type = "session.created" ∨ e.type = "session.updated") ∧
     hasNonBlankParentID e = true then
    { s with isChildSession := true }
  else s

/-- The early-return state clearing for sub-agent sessions. -/
def subagentSquelch (s : SessionState) : SessionState :=
  { s with
      waitingForInputReady := false
      pendingTerminationNotice := none
      pendingInterruptNotice := none }

/-- The message.updated handling for a user message. -/
def userMessageUpdate (s : SessionState) (id : String) (now : Int) : SessionState :=
  let s1 :=
    { s with
        userMessageIds := setAdd s.userMessageIds id
        currentRequestId := some id
        currentRequestStartedAt := now
        currentRequestPreview := ""
        subtaskByCallId := []
        lastProgressSnapshotKey := "" }
  match assocGet s1.textByMessageId id with
  | some cachedPrompt =>
    if (trimList cachedPrompt.data).isEmpty then s1
    else { s1 with currentRequestPreview := cachedPrompt }
  | none => s1

/-- The message.updated handling for an assistant message. -/
def assistantMessageUpdate (s : SessionState) (id : String) (agent : Option String)
    (now : Int) : SessionState :=
  let s0 :=
    if (match agent with
        | some a => isJuniorAgentName a
        | none => false) = true then
      { s with isChildSession := true }
    else s
  let s1 :=
    { s0 with
        assistantMessageIds := setAdd s0.assistantMessageIds id
        waitingForInputReady := false
        pendingTerminationNotice := none
        pendingInterruptNotice := none }
  let s2 := if s1.responseStartedAt = 0 then { s1 with responseStartedAt := now } else s1
  match assocGet s2.textByMessageId id with
  | some cachedText =>
    if (trimList cachedText.data).isEmpty then s2
    else if isIntermediateAnalysisMessage cachedText then
      { s2 with mutedAssistantMessageIds := setAdd s2.mutedAssistantMessageIds id }
    else
      { s2 with
          mutedAssistantMessageIds := setRemove s2.mutedAssistantMessageIds id
          lastAssistantMessageId := some id
          lastAssistantText := cachedText
          lastAssistantUpdatedAt := now
          waitingForInputReady :=
            decide (some id ≠ s2.lastNotifiedMessageId) &&
              !s2.delegationMessageIds.contains id }
  | none => s2

def subtaskSet (m : List (String × SubtaskInfo)) (k : String) (v : SubtaskInfo) :
    List (String × SubtaskInfo) :=
  (k, v) :: m.filter (fun p => p.1 ≠ k)

/-- The message.part.updated handling for a tool part. -/
def toolPartUpdate (s : SessionState) (mid tool : String) (callID : Option String)
    (stateStatus : Option String) : SessionState :=
  if isDelegationToolName tool then
    let s1 := { s with delegationMessageIds := setAdd s.delegationMessageIds mid }
    let rawStatus := lowerStr (normalizeSingleLine (stateStatus.getD "") 40)
    let status :=
      if rawStatus = "pending" ∨ rawStatus = "running" ∨ rawStatus = "completed" ∨
         rawStatus = "error" then rawStatus
      else "running"
    let callKey :=
      match callID with
      | some c => if c = "" then mid ++ ":" ++ tool else c
      | none => mid ++ ":" ++ tool
    let s2 := { s1 with subtaskByCallId := subtaskSet s1.subtaskByCallId callKey ⟨status, tool⟩ }
    if s2.lastAssistantMessageId = some mid then { s2 with waitingForInputReady := false }
    else s2
  else s

/-- The message.part.updated handling for a subtask part. -/
def subtaskPartUpdate (s : SessionState) (partId : Option String) (agent : Option String) :
    SessionState :=
  if s.currentRequestId.isSome then
    let defaultKey :=
      (s.currentRequestId.getD "") ++ ":subtask:" ++ toString (s.subtaskByCallId.length + 1)
    let subtaskID :=
      match partId with
      | some i => if i = "" then defaultKey else i
      | none => defaultKey
    { s with subtaskByCallId := subtaskSet s.subtaskByCallId subtaskID ⟨"running", agent.getD "subtask"⟩ }
  else s

/-- The message.part.updated handling for a text part. -/
def textPartUpdate (s : SessionState) (mid text : String) (now : Int) : SessionState :=
  let nextText := normalizeText text
  let s1 := { s with textByMessageId := assocSet s.textByMessageId mid nextText }
  let s2 :=
    if s1.currentRequestId = some mid ∧ s1.userMessageIds.contains mid = true then
      { s1 with currentRequestPreview := nextText }
    else s1
  if s2.assistantMessageIds.contains mid = true ∨ s2.lastAssistantMessageId = some mid then
    let s3 := if s2.responseStartedAt = 0 then { s2 with responseStartedAt := now } else s2
    if isIntermediateAnalysisMessage nextText then
      let s4 := { s3 with mutedAssistantMessageIds := setAdd s3.mutedAssistantMessageIds mid }
      let s5 :=
        if s4.lastAssistantMessageId = some mid then
          { s4 with lastAssistantMessageId := none, lastAssistantText := "" }
        else s4
      { s5 with waitingForInputReady := false }
    else
      { s3 with
          mutedAssistantMessageIds := setRemove s3.mutedAssistantMessageIds mid
          lastAssistantMessageId := some mid
          lastAssistantText := nextText
          lastAssistantUpdatedAt := now
          waitingForInputReady :=
            decide (some mid ≠ s3.lastNotifiedMessageId) &&
              !s3.delegationMessageIds.contains mid
          pendingTerminationNotice := none
          pendingInterruptNotice := none }
  else s2

/-- The session.status busy/retry handling: re-arm the response timer
and clear pending notices. -/
def busyRetryUpdate (s : SessionState) (now : Int) : SessionState :=
  { s with
      responseStartedAt := now
      waitingForInputReady := decide (s.lastAssistantMessageId ≠ s.lastNotifiedMessageId)
      pendingTerminationNotice := none
      pendingInterruptNotice := none }

/-- The trigger label of a session.status termination: the status type
when truthy, else the notice kind. -/
def statusOrKindLabel (statusType : Option String) (t : TerminationNotice) : String :=
  match statusType with
  | some st => if st = "" then terminationKindStr t.kind else st
  | none => terminationKindStr t.kind

/-- One step of the plugin event hook for a single session (events whose
extracted session id does not match are filtered upstream), transcribed
from the source's event handler. -/
def handleEvent (config : RuntimeConfig) (s0 : SessionState) (e : Event) (now : Int) :
    SessionState × Option SentNotification :=
  let s := applySessionTitle s0 e
  match extractInterruptNotice e with
  | some interruptNotice =>
    notifyIfReady config (interruptArm s interruptNotice) now
      ("interrupt: " ++ interruptKindStr interruptNotice.kind)
  | none =>
    let s1 := markChildFromParentID s e
    if isSubagentSessionState s1 = true then (subagentSquelch s1, none)
    else if e.type = "message.updated" then
      if e.infoRole = some "user" then
        match e.infoId with
        | some id => (userMessageUpdate s1 id now, none)
        | none => (s1, none)
      else if e.infoRole = some "assistant" then
        match e.infoId with
        | some id => (assistantMessageUpdate s1 id e.infoAgent now, none)
        | none => (s1, none)
      else (s1, none)
    else if e.type = "message.part.updated" then
      if e.partType = some "tool" then
        match e.partMessageID with
        | some mid => (toolPartUpdate s1 mid (e.partTool.getD "") e.partCallID e.partStateStatus, none)
        | none => (s1, none)
      else if e.partType = some "subtask" then
        (subtaskPartUpdate s1 e.partId e.partAgent, none)
      else if e.partType = some "text" then
        match e.partMessageID with
        | some mid => (textPartUpdate s1 mid (e.partText.getD "") now, none)
        | none => (s1, none)
      else (s1, none)
    else if e.type = "session.status" then
      match extractTerminationNotice e with
      | some t =>
        notifyIfReady config (terminationArm s1 t) now
          ("session.status: " ++ statusOrKindLabel e.statusType t)
      | none =>
        if e.statusType = some "busy" ∨ e.statusType = some "retry" then
          (busyRetryUpdate s1 now, none)
        else if e.statusType = some "idle" ∧ config.trigger.notifyOnStatusIdle = true then
          notifyIfReady config s1 now "session.status: idle"
        else (s1, none)
    else
      match extractTerminationNotice e with
      | some t => notifyIfReady config (terminationArm s1 t) now e.type
      | none =>
        if e.type = "session.idle" ∧ config.trigger.notifyOnSessionIdle = true then
          notifyIfReady config s1 now "session.idle"
        else (s1, none)

/-- Fold the event hook over a timed event trace, collecting the
delivered notifications in order. -/
def processEvents (config : RuntimeConfig) (s : SessionState) :
    List (Event × Int) → SessionState × List SentNotification
  | [] => (s, [])
  | (e, t) :: rest =>
    let step := handleEvent config s e t
    let next := processEvents config step.1 rest
    (next.1, step.2.toList ++ next.2)

/-- A merged configuration value as seen by the numeric normalization
in normalizeRuntimeConfig: after the deep merge with the defaults, a
field holds either a finite number, or some non-number value (strings,
objects, NaN, infinities), or is missing entirely; Number.isFinite is
true exactly in the first case. -/
inductive ConfigValue where
  | missing
  | nonNumber
  | number (n : Int)
deriving DecidableEq, Repr

def ConfigValue.finiteNumber? : ConfigValue → Option Int
  | number n => some n
  | _ => none

/-- The raw (merged) values of the three numeric fields whose
normalization the claims describe. -/
structure RawNotifierConfig where
  triggerCooldownMs : ConfigValue
  triggerDedupeWindowMs : ConfigValue
  messageMaxChars : ConfigValue
deriving DecidableEq, Repr

structure NormalizedNumericConfig where
  cooldownMs : Int
  dedupeWindowMs : Int
  maxChars : Int
deriving DecidableEq, Repr

def DISCORD_CONTENT_LIMIT : Int := 2000

/-- The numeric-field slice of `normalizeRuntimeConfig(raw)` (identical
in both plugin variants): cooldownMs passes through unclamped with
default 60000; dedupeWindowMs is clamped to the window bounds with
default 15000; maxChars is clamped between 300 and the platform content
limit with default 1900. -/
def normalizeRuntimeConfigNumeric (raw : RawNotifierConfig) : NormalizedNumericConfig where
  cooldownMs :=
    match raw.triggerCooldownMs.finiteNumber? with
    | some n => n
    | none => 60000
  dedupeWindowMs :=
    match raw.triggerDedupeWindowMs.finiteNumber? with
    | some n => min (max 1000 n) 300000
    | none => 15000
  maxChars :=
    match raw.messageMaxChars.finiteNumber? with
    | some n => min (max 300 n) DISCORD_CONTENT_LIMIT
    | none => 1900

section NotifyLemmas

theorem finalizeCRS_frame (s : SessionState) :
    (finalizeCurrentRequestStatus s).lastNotifiedAt = s.lastNotifiedAt ∧
    (finalizeCurrentRequestStatus s).lastNotifiedMessageId = s.lastNotifiedMessageId ∧
    (finalizeCurrentRequestStatus s).lastNotifiedTextKey = s.lastNotifiedTextKey ∧
    (finalizeCurrentRequestStatus s).pendingTerminationNotice = s.pendingTerminationNotice ∧
    (finalizeCurrentRequestStatus s).pendingInterruptNotice = s.pendingInterruptNotice ∧
    (finalizeCurrentRequestStatus s).waitingForInputReady = s.waitingForInputReady ∧
    (finalizeCurrentRequestStatus s).lastAssistantMessageId = s.lastAssistantMessageId ∧
    (finalizeCurrentRequestStatus s).isChildSession = s.isChildSession := by
  unfold finalizeCurrentRequestStatus resetCurrentRequestState
  split <;> simp

/-- The send path always returns a notification record with the
priority-resolved kind and the decision-point dedup key. -/
theorem notifySendUpdate_snd (s : SessionState) (now : Int) (g : String) :
    (notifySendUpdate s now g).2 =
      some { kind := notifyKind s, messageId := s.lastAssistantMessageId,
             textKey := notifyCurrentTextKey s, sentAt := now, triggerKind := g } := by
  rfl

/-- The send path clears both pending notices and stamps the dedup
bookkeeping. -/
theorem notifySendUpdate_fst (s : SessionState) (now : Int) (g : String) :
    (notifySendUpdate s now g).1.pendingTerminationNotice = none ∧
    (notifySendUpdate s now g).1.pendingInterruptNotice = none ∧
    (notifySendUpdate s now g).1.lastNotifiedAt = now ∧
    (notifySendUpdate s now g).1.lastNotifiedMessageId = s.lastAssistantMessageId ∧
    (notifySendUpdate s now g).1.lastNotifiedTextKey = notifyCurrentTextKey s ∧
    (notifySendUpdate s now g).1.waitingForInputReady = false ∧
    (notifySendUpdate s now g).1.isChildSession = s.isChildSession := by
  have hf := finalizeCRS_frame s
  unfold notifySendUpdate
  split <;> simp_all [finalizeCurrentRequestStatus, resetCurrentRequestState]

/-- If notifyIfReady suppresses, the dedup/notice bookkeeping fields are
untouched (only current-request bookkeeping may be finalized). -/
theorem notifyIfReady_none_frame (c : RuntimeConfig) (s : SessionState) (now : Int)
    (g : String) (h : (notifyIfReady c s now g).2 = none) :
    (notifyIfReady c s now g).1.lastNotifiedAt = s.lastNotifiedAt ∧
    (notifyIfReady c s now g).1.lastNotifiedMessageId = s.lastNotifiedMessageId ∧
    (notifyIfReady c s now g).1.lastNotifiedTextKey = s.lastNotifiedTextKey ∧
    (notifyIfReady c s now g).1.pendingTerminationNotice = s.pendingTerminationNotice ∧
    (notifyIfReady c s now g).1.pendingInterruptNotice = s.pendingInterruptNotice ∧
    (notifyIfReady c s now g).1.isChildSession = s.isChildSession := by
  have hf := finalizeCRS_frame s
  have hfi : (notifyFinalizeIf s g).lastNotifiedAt = s.lastNotifiedAt ∧
      (notifyFinalizeIf s g).lastNotifiedMessageId = s.lastNotifiedMessageId ∧
      (notifyFinalizeIf s g).lastNotifiedTextKey = s.lastNotifiedTextKey ∧
      (notifyFinalizeIf s g).pendingTerminationNotice = s.pendingTerminationNotice ∧
      (notifyFinalizeIf s g).pendingInterruptNotice = s.pendingInterruptNotice ∧
      (notifyFinalizeIf s g).isChildSession = s.isChildSession := by
    unfold notifyFinalizeIf
    split
    · exact ⟨hf.1, hf.2.1, hf.2.2.1, hf.2.2.2.1, hf.2.2.2.2.1, hf.2.2.2.2.2.2.2⟩
    · exact ⟨rfl, rfl, rfl, rfl, rfl, rfl⟩
  unfold notifyIfReady at h ⊢
  split_ifs at h ⊢ <;>
    first
      | exact hfi
      | exact ⟨rfl, rfl, rfl, rfl, rfl, rfl⟩
      | (rw [notifySendUpdate_snd] at h; exact Option.noConfusion h)

/-- When the three short-circuits fail and no suppression guard holds,
notifyIfReady takes the send path. -/
theorem notifyIfReady_send_eq (c : RuntimeConfig) (s : SessionState) (now : Int) (g : String)
    (hen : c.enabled = true) (hus : hasUsableDiscordConfig c = true)
    (hsub : ¬(isSubagentSessionState s = true ∧ s.pendingInterruptNotice = none))
    (hns : ¬notifySuppressed c s now) :
    notifyIfReady c s now g = notifySendUpdate s now g := by
  unfold notifyIfReady
  rw [if_neg (by simp [hen]), if_neg (by simp [hus]), if_neg hsub, if_neg hns]

/-- Any suppression guard forces a no-send outcome. -/
theorem notifyIfReady_suppressed_none (c : RuntimeConfig) (s : SessionState) (now : Int)
    (g : String) (h : notifySuppressed c s now) :
    (notifyIfReady c s now g).2 = none := by
  unfold notifyIfReady
  split_ifs <;> rfl

/-- A no-send outcome means one of the short-circuits or suppression
guards held. -/
theorem notifyIfReady_none_cases (c : RuntimeConfig) (s : SessionState) (now : Int)
    (g : String) (h : (notifyIfReady c s now g).2 = none) :
    c.enabled = false ∨ hasUsableDiscordConfig c = false ∨
    (isSubagentSessionState s = true ∧ s.pendingInterruptNotice = none) ∨
    notifySuppressed c s now := by
  unfold notifyIfReady at h
  by_cases h1 : c.enabled = false
  · exact Or.inl h1
  by_cases h2 : hasUsableDiscordConfig c = false
  · exact Or.inr (Or.inl h2)
  by_cases h3 : isSubagentSessionState s = true ∧ s.pendingInterruptNotice = none
  · exact Or.inr (Or.inr (Or.inl h3))
  by_cases h4 : notifySuppressed c s now
  · exact Or.inr (Or.inr (Or.inr h4))
  rw [if_neg h1, if_neg h2, if_neg h3, if_neg h4, notifySendUpdate_snd] at h
  exact Option.noConfusion h

/-- A pending interrupt notice resolves the notification kind and key in
its favour. -/
theorem notifyKind_interrupt (s : SessionState) (i : InterruptNotice)
    (hi : s.pendingInterruptNotice = some i) :
    notifyKind s = .interrupt i ∧ notifyCurrentTextKey s = interruptTextKey i := by
  unfold notifyKind notifyCurrentTextKey
  rw [hi]
  exact ⟨rfl, rfl⟩

theorem strData_append (a b : String) : (a ++ b).data = a.data ++ b.data := rfl

/-- The interrupt dedup key is never blank. -/
theorem interruptTextKey_ne_empty (i : InterruptNotice) : interruptTextKey i ≠ "" := by
  unfold interruptTextKey
  intro h
  have hd : ("interrupt:" ++ interruptKindStr i.kind ++ ":" ++ i.eventType ++ ":" ++ i.detail).data
      = ("" : String).data := by rw [h]
  rw [strData_append, strData_append, strData_append, strData_append] at hd
  have hlen := congrArg List.length hd
  simp only [List.length_append] at hlen
  simp at hlen

/-- With a pending interrupt notice, the only applicable suppression
guard is the dedup-window one. -/
theorem notifySuppressed_interrupt (c : RuntimeConfig) (s : SessionState) (now : Int)
    (i : InterruptNotice) (hi : s.pendingInterruptNotice = some i)
    (hkey : interruptTextKey i ≠ s.lastNotifiedTextKey ∨
            c.trigger.dedupeWindowMs ≤ now - s.lastNotifiedAt) :
    ¬notifySuppressed c s now := by
  have hk := (notifyKind_interrupt s i hi).2
  unfold notifySuppressed
  rw [hi, hk]
  rintro (⟨-, -, hn⟩ | ⟨hn, -⟩ | ⟨-, hn, -⟩ | ⟨-, hn, -⟩ | ⟨-, hn, -⟩ | ⟨-, hn, -⟩ |
          ⟨-, h2, h3⟩)
  · exact Option.noConfusion hn
  · exact Option.noConfusion hn
  · exact Option.noConfusion hn
  · exact Option.noConfusion hn
  · exact Option.noConfusion hn
  · exact Option.noConfusion hn
  · rcases hkey with hk2 | hk2
    · exact hk2 h2
    · omega

/-- Core interrupt-send lemma: an armed interrupt notice passes every
guard except the dedup-window one, regardless of sub-agent status,
cooldown state or assistant-message state, and the delivered
notification is the interrupt one; both pending notices are cleared. -/
theorem notifyIfReady_interrupt_sends (c : RuntimeConfig) (s : SessionState) (now : Int)
    (g : String) (i : InterruptNotice)
    (hen : c.enabled = true) (hus : hasUsableDiscordConfig c = true)
    (hi : s.pendingInterruptNotice = some i)
    (hkey : interruptTextKey i ≠ s.lastNotifiedTextKey ∨
            c.trigger.dedupeWindowMs ≤ now - s.lastNotifiedAt) :
    (notifyIfReady c s now g).2 =
      some { kind := .interrupt i, messageId := s.lastAssistantMessageId,
             textKey := interruptTextKey i, sentAt := now, triggerKind := g } ∧
    (notifyIfReady c s now g).1.pendingTerminationNotice = none ∧
    (notifyIfReady c s now g).1.pendingInterruptNotice = none := by
  have hsub : ¬(isSubagentSessionState s = true ∧ s.pendingInterruptNotice = none) := by
    rintro ⟨-, hnone⟩
    rw [hi] at hnone
    exact Option.noConfusion hnone
  have hns := notifySuppressed_interrupt c s now i hi hkey
  have heq := notifyIfReady_send_eq c s now g hen hus hsub hns
  have hk := notifyKind_interrupt s i hi
  rw [heq, notifySendUpdate_snd, hk.1, hk.2]
  exact ⟨rfl, (notifySendUpdate_fst s now g).1, (notifySendUpdate_fst s now g).2.1⟩

/-- With neither notice pending, the key and kind are the plain ones. -/
theorem notifyKind_plain (s : SessionState)
    (hterm : s.pendingTerminationNotice = none)
    (hint : s.pendingInterruptNotice = none) :
    notifyKind s = .ready ∧
    notifyCurrentTextKey s = buildTextDedupeKey s.lastAssistantText := by
  unfold notifyKind notifyCurrentTextKey
  rw [hint, hterm]
  exact ⟨rfl, rfl⟩

/-- Every guard of the plain path passing refutes the suppression
disjunction. -/
theorem notifySuppressed_plain_not (c : RuntimeConfig) (s : SessionState) (now : Int)
    (m : String)
    (hterm : s.pendingTerminationNotice = none)
    (hint : s.pendingInterruptNotice = none)
    (hwait : s.waitingForInputReady = true)
    (hcool : c.trigger.cooldownMs ≤ now - s.lastNotifiedAt)
    (hmid : s.lastAssistantMessageId = some m)
    (hnoise : isIntermediateAnalysisMessage s.lastAssistantText = false)
    (hnew : s.lastNotifiedMessageId ≠ some m)
    (hdeleg : s.delegationMessageIds.contains m = false)
    (hkey : buildTextDedupeKey s.lastAssistantText ≠ s.lastNotifiedTextKey ∨
            c.trigger.dedupeWindowMs ≤ now - s.lastNotifiedAt) :
    ¬notifySuppressed c s now := by
  have hk := (notifyKind_plain s hterm hint).2
  unfold notifySuppressed
  rw [hk, hmid]
  rintro (⟨hw, -, -⟩ | ⟨-, hc⟩ | ⟨-, -, -, hn⟩ | ⟨-, -, hn⟩ | ⟨-, -, -, hn⟩ |
          ⟨-, -, hn⟩ | ⟨-, h2, h3⟩)
  · rw [hwait] at hw; exact Bool.noConfusion hw
  · omega
  · exact Option.noConfusion hn
  · rw [hnoise] at hn; exact Bool.noConfusion hn
  · exact hnew hn.symm
  · simp at hn
    simp [hn] at hdeleg
  · rcases hkey with hk2 | hk2
    · exact hk2 h2
    · omega

/-- The kind of any delivered notification is the priority-resolved one. -/
theorem notifyIfReady_sent_kind (c : RuntimeConfig) (s : SessionState) (now : Int)
    (g : String) (r : SentNotification) (h : (notifyIfReady c s now g).2 = some r) :
    r.kind = notifyKind s := by
  unfold notifyIfReady at h
  split_ifs at h <;> try exact Option.noConfusion h
  rw [notifySendUpdate_snd] at h
  injection h with h'
  rw [← h']

/-- notifyIfReady never changes the child-session flag. -/
theorem notifyIfReady_child_frame (c : RuntimeConfig) (s : SessionState) (now : Int)
    (g : String) :
    (notifyIfReady c s now g).1.isChildSession = s.isChildSession := by
  unfold notifyIfReady
  split_ifs
  · rfl
  · rfl
  · rfl
  · unfold notifyFinalizeIf
    split
    · exact (finalizeCRS_frame s).2.2.2.2.2.2.2
    · rfl
  · exact (notifySendUpdate_fst s now g).2.2.2.2.2.2

/-- A child-flagged session state makes isSubagentSessionState true. -/
theorem isSubagentSessionState_of_child (s : SessionState) (h : s.isChildSession = true) :
    isSubagentSessionState s = true := by
  unfold isSubagentSessionState
  rw [h]
  rfl

/-- One step of the event hook on a child-flagged session: the flag
survives, and any delivered notification is an interrupt one. -/
theorem handleEvent_child (c : RuntimeConfig) (s : SessionState) (e : Event) (t : Int)
    (h : s.isChildSession = true) :
    (handleEvent c s e t).1.isChildSession = true ∧
    ∀ r, (handleEvent c s e t).2 = some r → ∃ j, r.kind = NotificationKind.interrupt j := by
  have hT : (applySessionTitle s e).isChildSession = true := by
    simp only [applySessionTitle]
    split <;> simpa using h
  unfold handleEvent
  cases hx : extractInterruptNotice e with
  | some n =>
    simp only [hx]
    have hi : (interruptArm (applySessionTitle s e) n).pendingInterruptNotice = some n := rfl
    constructor
    · rw [notifyIfReady_child_frame]
      simpa [interruptArm] using hT
    · intro r hr
      have hk := notifyIfReady_sent_kind c _ t _ r hr
      rw [(notifyKind_interrupt _ n hi).1] at hk
      exact ⟨n, hk⟩
  | none =>
    simp only [hx]
    have hs1 : (markChildFromParentID (applySessionTitle s e) e).isChildSession = true := by
      unfold markChildFromParentID
      split <;> simpa using hT
    have hsub : isSubagentSessionState (markChildFromParentID (applySessionTitle s e) e) = true :=
      isSubagentSessionState_of_child _ hs1
    rw [if_pos hsub]
    constructor
    · simpa [subagentSquelch] using hs1
    · intro r hr
      exact Option.noConfusion hr

/-- Claim C2 trace half: an event stream over a child-flagged session
only ever delivers interrupt notifications. -/
theorem processEvents_child (c : RuntimeConfig) (s : SessionState)
    (events : List (Event × Int)) (h : s.isChildSession = true) :
    ∀ r ∈ (processEvents c s events).2, ∃ j, r.kind = NotificationKind.interrupt j := by
  induction events generalizing s with
  | nil =>
    intro r hr
    simp [processEvents] at hr
  | cons p rest ih =>
    intro r hr
    obtain ⟨e, t⟩ := p
    simp only [processEvents] at hr
    have hc := handleEvent_child c s e t h
    rcases List.mem_append.1 hr with hr1 | hr2
    · cases hsent : (handleEvent c s e t).2 with
      | none => rw [hsent] at hr1; simp at hr1
      | some r0 =>
        rw [hsent] at hr1
        simp at hr1
        rw [hr1]
        exact hc.2 r0 hsent
    · exact ih (handleEvent c s e t).1 hc.1 r hr2

/-- Fields the title step never touches. -/
theorem applySessionTitle_frame (s : SessionState) (e : Event) :
    (applySessionTitle s e).pendingTerminationNotice = s.pendingTerminationNotice ∧
    (applySessionTitle s e).pendingInterruptNotice = s.pendingInterruptNotice ∧
    (applySessionTitle s e).lastNotifiedMessageId = s.lastNotifiedMessageId ∧
    (applySessionTitle s e).lastNotifiedAt = s.lastNotifiedAt := by
  simp only [applySessionTitle]
  split <;> simp

/-- Fields the child-marking step never touches. -/
theorem markChildFromParentID_frame (s : SessionState) (e : Event) :
    (markChildFromParentID s e).pendingTerminationNotice = s.pendingTerminationNotice ∧
    (markChildFromParentID s e).pendingInterruptNotice = s.pendingInterruptNotice ∧
    (markChildFromParentID s e).lastNotifiedMessageId = s.lastNotifiedMessageId ∧
    (markChildFromParentID s e).lastNotifiedAt = s.lastNotifiedAt := by
  unfold markChildFromParentID
  split <;> simp

theorem subagentSquelch_frame (s : SessionState) :
    (subagentSquelch s).pendingTerminationNotice = none ∧
    (subagentSquelch s).pendingInterruptNotice = none ∧
    (subagentSquelch s).lastNotifiedMessageId = s.lastNotifiedMessageId ∧
    (subagentSquelch s).lastNotifiedAt = s.lastNotifiedAt := by
  unfold subagentSquelch
  simp

theorem userMessageUpdate_frame (s : SessionState) (id : String) (now : Int) :
    (userMessageUpdate s id now).pendingTerminationNotice = s.pendingTerminationNotice ∧
    (userMessageUpdate s id now).pendingInterruptNotice = s.pendingInterruptNotice ∧
    (userMessageUpdate s id now).lastNotifiedMessageId = s.lastNotifiedMessageId ∧
    (userMessageUpdate s id now).lastNotifiedAt = s.lastNotifiedAt := by
  simp only [userMessageUpdate]
  repeat' split
  all_goals exact ⟨rfl, rfl, rfl, rfl⟩

theorem assistantMessageUpdate_frame (s : SessionState) (id : String)
    (agent : Option String) (now : Int) :
    (assistantMessageUpdate s id agent now).pendingTerminationNotice = none ∧
    (assistantMessageUpdate s id agent now).pendingInterruptNotice = none ∧
    (assistantMessageUpdate s id agent now).lastNotifiedMessageId = s.lastNotifiedMessageId ∧
    (assistantMessageUpdate s id agent now).lastNotifiedAt = s.lastNotifiedAt := by
  simp only [assistantMessageUpdate]
  repeat' split
  all_goals exact ⟨rfl, rfl, rfl, rfl⟩

theorem toolPartUpdate_frame (s : SessionState) (mid tool : String)
    (callID stateStatus : Option String) :
    (toolPartUpdate s mid tool callID stateStatus).pendingTerminationNotice =
      s.pendingTerminationNotice ∧
    (toolPartUpdate s mid tool callID stateStatus).pendingInterruptNotice =
      s.pendingInterruptNotice ∧
    (toolPartUpdate s mid tool callID stateStatus).lastNotifiedMessageId =
      s.lastNotifiedMessageId ∧
    (toolPartUpdate s mid tool callID stateStatus).lastNotifiedAt = s.lastNotifiedAt := by
  simp only [toolPartUpdate]
  repeat' split
  all_goals exact ⟨rfl, rfl, rfl, rfl⟩

theorem subtaskPartUpdate_frame (s : SessionState) (partId agent : Option String) :
    (subtaskPartUpdate s partId agent).pendingTerminationNotice = s.pendingTerminationNotice ∧
    (subtaskPartUpdate s partId agent).pendingInterruptNotice = s.pendingInterruptNotice ∧
    (subtaskPartUpdate s partId agent).lastNotifiedMessageId = s.lastNotifiedMessageId ∧
    (subtaskPartUpdate s partId agent).lastNotifiedAt = s.lastNotifiedAt := by
  simp only [subtaskPartUpdate]
  repeat' split
  all_goals exact ⟨rfl, rfl, rfl, rfl⟩

theorem textPartUpdate_frame (s : SessionState) (mid text : String) (now : Int) :
    ((textPartUpdate s mid text now).pendingTerminationNotice = none ∨
      (textPartUpdate s mid text now).pendingTerminationNotice = s.pendingTerminationNotice) ∧
    ((textPartUpdate s mid text now).pendingInterruptNotice = none ∨
      (textPartUpdate s mid text now).pendingInterruptNotice = s.pendingInterruptNotice) ∧
    (textPartUpdate s mid text now).lastNotifiedMessageId = s.lastNotifiedMessageId ∧
    (textPartUpdate s mid text now).lastNotifiedAt = s.lastNotifiedAt := by
  simp only [textPartUpdate]
  repeat' split
  all_goals
    first
      | exact ⟨Or.inl rfl, Or.inl rfl, rfl, rfl⟩
      | exact ⟨Or.inr rfl, Or.inr rfl, rfl, rfl⟩

theorem busyRetryUpdate_frame (s : SessionState) (now : Int) :
    (busyRetryUpdate s now).pendingTerminationNotice = none ∧
    (busyRetryUpdate s now).pendingInterruptNotice = none ∧
    (busyRetryUpdate s now).lastNotifiedMessageId = s.lastNotifiedMessageId ∧
    (busyRetryUpdate s now).lastNotifiedAt = s.lastNotifiedAt := by
  unfold busyRetryUpdate
  simp

/-- After a successful delivery, the bookkeeping is stamped with the
send time, candidate id and key, and both notices are cleared. -/
theorem notifyIfReady_sent_frame (c : RuntimeConfig) (s : SessionState) (now : Int)
    (g : String) (r : SentNotification) (h : (notifyIfReady c s now g).2 = some r) :
    (notifyIfReady c s now g).1.lastNotifiedAt = now ∧
    (notifyIfReady c s now g).1.lastNotifiedMessageId = r.messageId ∧
    (notifyIfReady c s now g).1.pendingTerminationNotice = none ∧
    (notifyIfReady c s now g).1.pendingInterruptNotice = none ∧
    r.messageId = s.lastAssistantMessageId ∧
    r.sentAt = now := by
  unfold notifyIfReady at h ⊢
  split_ifs at h ⊢ <;> try exact Option.noConfusion h
  rw [notifySendUpdate_snd] at h
  injection h with h'
  have hf := notifySendUpdate_fst s now g
  rw [← h']
  exact ⟨hf.2.2.1, hf.2.2.2.1, hf.1, hf.2.1, rfl, rfl⟩

/-- notifyIfReady on a plain state (no pending notices) with a required
assistant message: pendants stay clear, a suppression leaves the
last-notified id alone, and a delivery carries a fresh message id and
records it. -/
theorem notifyIfReady_plain_msg (c : RuntimeConfig) (s : SessionState) (now : Int)
    (g : String)
    (hreq : c.trigger.requireAssistantMessage = true)
    (hterm : s.pendingTerminationNotice = none)
    (hint : s.pendingInterruptNotice = none) :
    (notifyIfReady c s now g).1.pendingTerminationNotice = none ∧
    (notifyIfReady c s now g).1.pendingInterruptNotice = none ∧
    ((notifyIfReady c s now g).2 = none →
      (notifyIfReady c s now g).1.lastNotifiedMessageId = s.lastNotifiedMessageId) ∧
    (∀ r, (notifyIfReady c s now g).2 = some r →
      r.messageId ≠ s.lastNotifiedMessageId ∧
      (notifyIfReady c s now g).1.lastNotifiedMessageId = r.messageId) := by
  by_cases hsent : (notifyIfReady c s now g).2 = none
  · have hfr := notifyIfReady_none_frame c s now g hsent
    refine ⟨by rw [hfr.2.2.2.1]; exact hterm, by rw [hfr.2.2.2.2.1]; exact hint,
      fun _ => hfr.2.1, fun r hr => by rw [hsent] at hr; exact Option.noConfusion hr⟩
  · obtain ⟨r, hr⟩ := Option.ne_none_iff_exists'.1 hsent
    have hfr := notifyIfReady_sent_frame c s now g r hr
    have hcases := notifyIfReady_none_cases c s now g
    -- from the send we know no guard held
    have hns : ¬notifySuppressed c s now := by
      intro hsupp
      rw [notifyIfReady_suppressed_none c s now g hsupp] at hr
      exact Option.noConfusion hr
    have hmid : s.lastAssistantMessageId ≠ none := by
      intro hnone
      exact hns (Or.inr (Or.inr (Or.inl ⟨hterm, hint, hreq, hnone⟩)))
    have hnew : s.lastAssistantMessageId ≠ s.lastNotifiedMessageId := by
      intro heq
      exact hns (Or.inr (Or.inr (Or.inr (Or.inr (Or.inl ⟨hterm, hint, hmid, heq⟩)))))
    refine ⟨hfr.2.2.1, hfr.2.2.2.1, fun hnone => absurd hnone (by rw [hr]; simp),
      fun r' hr' => ?_⟩
    rw [hr] at hr'
    injection hr' with hrr
    subst hrr
    exact ⟨by rw [hfr.2.2.2.2.1]; exact hnew, hfr.2.1⟩

/-- The plain-step postcondition for one processed event, relative to
the pre-state s: pending notices clear, and the last-notified id moves
only by delivering a notification with a fresh id. -/
def PlainStepPost (s : SessionState) (out : SessionState × Option SentNotification) : Prop :=
  out.1.pendingTerminationNotice = none ∧
  out.1.pendingInterruptNotice = none ∧
  (out.2 = none → out.1.lastNotifiedMessageId = s.lastNotifiedMessageId) ∧
  (∀ r, out.2 = some r →
    r.messageId ≠ s.lastNotifiedMessageId ∧ out.1.lastNotifiedMessageId = r.messageId)

theorem plainPack (s : SessionState) (s' : SessionState)
    (h1 : s'.pendingTerminationNotice = none) (h2 : s'.pendingInterruptNotice = none)
    (h3 : s'.lastNotifiedMessageId = s.lastNotifiedMessageId) :
    PlainStepPost s (s', none) :=
  ⟨h1, h2, fun _ => h3, fun r hr => Option.noConfusion hr⟩

theorem plainNotifyPack (c : RuntimeConfig) (s s1 : SessionState) (t : Int) (g : String)
    (hreq : c.trigger.requireAssistantMessage = true)
    (h1term : s1.pendingTerminationNotice = none)
    (h1int : s1.pendingInterruptNotice = none)
    (h1mid : s1.lastNotifiedMessageId = s.lastNotifiedMessageId) :
    PlainStepPost s (notifyIfReady c s1 t g) := by
  have hp := notifyIfReady_plain_msg c s1 t g hreq h1term h1int
  refine ⟨hp.1, hp.2.1, fun h => (hp.2.2.1 h).trans h1mid, fun r hr => ?_⟩
  have h2 := hp.2.2.2 r hr
  exact ⟨h1mid ▸ h2.1, h2.2⟩

/-- One step of the event hook on a plain event (no interrupt notice,
no termination notice extracted) from a plain state. -/
theorem handleEvent_plain (c : RuntimeConfig) (s : SessionState) (e : Event) (t : Int)
    (hreq : c.trigger.requireAssistantMessage = true)
    (he : extractInterruptNotice e = none)
    (ht : extractTerminationNotice e = none)
    (hterm : s.pendingTerminationNotice = none)
    (hint : s.pendingInterruptNotice = none) :
    PlainStepPost s (handleEvent c s e t) := by
  have hA := applySessionTitle_frame s e
  have hB := markChildFromParentID_frame (applySessionTitle s e) e
  set s1 := markChildFromParentID (applySessionTitle s e) e with hs1
  have h1term : s1.pendingTerminationNotice = none := by
    rw [hs1, hB.1, hA.1]; exact hterm
  have h1int : s1.pendingInterruptNotice = none := by
    rw [hs1, hB.2.1, hA.2.1]; exact hint
  have h1mid : s1.lastNotifiedMessageId = s.lastNotifiedMessageId := by
    rw [hs1, hB.2.2.1, hA.2.2.1]
  unfold handleEvent
  simp only [he, ht]
  rw [← hs1]
  split_ifs with hsub hmu huser hasst hpu htool hsubt htext hss hbusy hidle2 hidle
  · -- sub-agent squelch
    have hq := subagentSquelch_frame s1
    exact plainPack s _ hq.1 hq.2.1 (hq.2.2.1.trans h1mid)
  · -- message.updated, user role
    cases hid : e.infoId with
    | some id =>
      have hq := userMessageUpdate_frame s1 id t
      exact plainPack s _ (hq.1.trans h1term) (hq.2.1.trans h1int) (hq.2.2.1.trans h1mid)
    | none => exact plainPack s _ h1term h1int h1mid
  · -- message.updated, assistant role
    cases hid : e.infoId with
    | some id =>
      have hq := assistantMessageUpdate_frame s1 id e.infoAgent t
      exact plainPack s _ hq.1 hq.2.1 (hq.2.2.1.trans h1mid)
    | none => exact plainPack s _ h1term h1int h1mid
  · -- message.updated, other role
    exact plainPack s _ h1term h1int h1mid
  · -- part.updated, tool part
    cases hmid : e.partMessageID with
    | some mid =>
      have hq := toolPartUpdate_frame s1 mid (e.partTool.getD "") e.partCallID e.partStateStatus
      exact plainPack s _ (hq.1.trans h1term) (hq.2.1.trans h1int) (hq.2.2.1.trans h1mid)
    | none => exact plainPack s _ h1term h1int h1mid
  · -- part.updated, subtask part
    have hq := subtaskPartUpdate_frame s1 e.partId e.partAgent
    exact plainPack s _ (hq.1.trans h1term) (hq.2.1.trans h1int) (hq.2.2.1.trans h1mid)
  · -- part.updated, text part
    cases hmid : e.partMessageID with
    | some mid =>
      have hq := textPartUpdate_frame s1 mid (e.partText.getD "") t
      refine plainPack s _ ?_ ?_ (hq.2.2.1.trans h1mid)
      · rcases hq.1 with h | h
        · exact h
        · exact h.trans h1term
      · rcases hq.2.1 with h | h
        · exact h
        · exact h.trans h1int
    | none => exact plainPack s _ h1term h1int h1mid
  · -- part.updated, other part
    exact plainPack s _ h1term h1int h1mid
  · -- session.status, busy or retry
    have hq := busyRetryUpdate_frame s1 t
    exact plainPack s _ hq.1 hq.2.1 (hq.2.2.1.trans h1mid)
  · -- session.status, idle with notifyOnStatusIdle
    exact plainNotifyPack c s s1 t _ hreq h1term h1int h1mid
  · -- session.status, other status
    exact plainPack s _ h1term h1int h1mid
  · -- session.idle with notifyOnSessionIdle
    exact plainNotifyPack c s s1 t _ hreq h1term h1int h1mid
  · -- any other event type
    exact plainPack s _ h1term h1int h1mid

/-- Over a trace of plain events from a plain state, the successively
notified message ids (prefixed with the initial last-notified id) never
repeat between neighbours: each delivery carries an id different from
the previously notified one. -/
theorem processEvents_plain_chain (c : RuntimeConfig) (events : List (Event × Int)) :
    ∀ (s : SessionState),
    c.trigger.requireAssistantMessage = true →
    s.pendingTerminationNotice = none →
    s.pendingInterruptNotice = none →
    (∀ p ∈ events, extractInterruptNotice p.1 = none ∧ extractTerminationNotice p.1 = none) →
    List.Chain' (fun a b => a ≠ b)
      (s.lastNotifiedMessageId ::
        (processEvents c s events).2.map SentNotification.messageId) := by
  induction events with
  | nil =>
    intro s _ _ _ _
    simp [processEvents]
  | cons p rest ih =>
    intro s hreq hterm hint hplain
    obtain ⟨e, t⟩ := p
    have hp := handleEvent_plain c s e t hreq (hplain (e, t) (by simp)).1
      (hplain (e, t) (by simp)).2 hterm hint
    have hplain' : ∀ q ∈ rest, extractInterruptNotice q.1 = none ∧
        extractTerminationNotice q.1 = none :=
      fun q hq => hplain q (List.mem_cons_of_mem _ hq)
    simp only [processEvents]
    cases hsent : (handleEvent c s e t).2 with
    | none =>
      have hih := ih (handleEvent c s e t).1 hreq hp.1 hp.2.1 hplain'
      rw [hp.2.2.1 hsent] at hih
      simpa [hsent] using hih
    | some r =>
      have hr := hp.2.2.2 r hsent
      have hih := ih (handleEvent c s e t).1 hreq hp.1 hp.2.1 hplain'
      rw [hr.2] at hih
      simp only [hsent, Option.toList_some, List.singleton_append, List.map_cons]
      exact List.Chain'.cons (Ne.symm hr.1) hih

/-- A no-delivery step never changes the cooldown timestamp. -/
theorem handleEvent_noSend_lastAt (c : RuntimeConfig) (s : SessionState) (e : Event)
    (t : Int) (h : (handleEvent c s e t).2 = none) :
    (handleEvent c s e t).1.lastNotifiedAt = s.lastNotifiedAt := by
  have hA := applySessionTitle_frame s e
  have hB := markChildFromParentID_frame (applySessionTitle s e) e
  set s1 := markChildFromParentID (applySessionTitle s e) e with hs1
  have h1at : s1.lastNotifiedAt = s.lastNotifiedAt := by
    rw [hs1, hB.2.2.2, hA.2.2.2]
  have hTat : (applySessionTitle s e).lastNotifiedAt = s.lastNotifiedAt := hA.2.2.2
  unfold handleEvent at h ⊢
  cases hx : extractInterruptNotice e with
  | some n =>
    simp only [hx] at h ⊢
    have := (notifyIfReady_none_frame c (interruptArm (applySessionTitle s e) n) t _ h).1
    rw [this]
    simpa [interruptArm] using hTat
  | none =>
    simp only [hx] at h ⊢
    rw [← hs1] at h ⊢
    cases htm : extractTerminationNotice e with
    | some n =>
      simp only [htm] at h ⊢
      split_ifs at h ⊢ with hsub hmu huser hasst hpu htool hsubt htext hss
      · exact (subagentSquelch_frame s1).2.2.2.trans h1at
      · cases hid : e.infoId with
        | some id => exact ((userMessageUpdate_frame s1 id t).2.2.2).trans h1at
        | none => exact h1at
      · cases hid : e.infoId with
        | some id => exact ((assistantMessageUpdate_frame s1 id e.infoAgent t).2.2.2).trans h1at
        | none => exact h1at
      · exact h1at
      · cases hmid : e.partMessageID with
        | some mid =>
          exact ((toolPartUpdate_frame s1 mid (e.partTool.getD "") e.partCallID
            e.partStateStatus).2.2.2).trans h1at
        | none => exact h1at
      · exact ((subtaskPartUpdate_frame s1 e.partId e.partAgent).2.2.2).trans h1at
      · cases hmid : e.partMessageID with
        | some mid =>
          exact ((textPartUpdate_frame s1 mid (e.partText.getD "") t).2.2.2).trans h1at
        | none => exact h1at
      · exact h1at
      · have := (notifyIfReady_none_frame c (terminationArm s1 n) t _ h).1
        rw [this]
        simpa [terminationArm] using h1at
      · have := (notifyIfReady_none_frame c (terminationArm s1 n) t _ h).1
        rw [this]
        simpa [terminationArm] using h1at
    | none =>
      simp only [htm] at h ⊢
      split_ifs at h ⊢ with hsub hmu huser hasst hpu htool hsubt htext hss hbusy hidle2 hidle
      · exact (subagentSquelch_frame s1).2.2.2.trans h1at
      · cases hid : e.infoId with
        | some id => exact ((userMessageUpdate_frame s1 id t).2.2.2).trans h1at
        | none => exact h1at
      · cases hid : e.infoId with
        | some id => exact ((assistantMessageUpdate_frame s1 id e.infoAgent t).2.2.2).trans h1at
        | none => exact h1at
      · exact h1at
      · cases hmid : e.partMessageID with
        | some mid =>
          exact ((toolPartUpdate_frame s1 mid (e.partTool.getD "") e.partCallID
            e.partStateStatus).2.2.2).trans h1at
        | none => exact h1at
      · exact ((subtaskPartUpdate_frame s1 e.partId e.partAgent).2.2.2).trans h1at
      · cases hmid : e.partMessageID with
        | some mid =>
          exact ((textPartUpdate_frame s1 mid (e.partText.getD "") t).2.2.2).trans h1at
        | none => exact h1at
      · exact h1at
      · exact ((busyRetryUpdate_frame s1 t).2.2.2).trans h1at
      · exact ((notifyIfReady_none_frame c s1 t _ h).1).trans h1at
      · exact h1at
      · exact ((notifyIfReady_none_frame c s1 t _ h).1).trans h1at
      · exact h1at

/-- A trace that delivers nothing never changes the cooldown timestamp. -/
theorem processEvents_noSend_lastAt (c : RuntimeConfig) (events : List (Event × Int)) :
    ∀ (s : SessionState), (processEvents c s events).2 = [] →
    (processEvents c s events).1.lastNotifiedAt = s.lastNotifiedAt := by
  induction events with
  | nil => intro s _; rfl
  | cons p rest ih =>
    intro s h
    obtain ⟨e, t⟩ := p
    simp only [processEvents] at h ⊢
    have hstep : (handleEvent c s e t).2 = none := by
      cases hs : (handleEvent c s e t).2 with
      | none => rfl
      | some r => rw [hs] at h; simp at h
    have hrest : (processEvents c (handleEvent c s e t).1 rest).2 = [] := by
      rw [hstep] at h
      simpa using h
    rw [ih (handleEvent c s e t).1 hrest]
    exact handleEvent_noSend_lastAt c s e t hstep

end NotifyLemmas

section Claims

/-! Concrete fixtures shared by the witnesses and counterexamples. -/

/-- The default runtime configuration with a usable Discord setup. -/
def exampleConfig : RuntimeConfig :=
  { enabled := true
    trigger :=
      { notifyOnSessionIdle := true, notifyOnStatusIdle := false,
        cooldownMs := 60000, dedupeWindowMs := 15000, requireAssistantMessage := true }
    discord := { botToken := "bot-token-abc", targets := [{ type := "channel", id := "123456" }] } }

/-- A configuration with a short cooldown and the minimal legal dedupe
window, for compact counterexample traces (cooldownMs is unclamped by
normalizeRuntimeConfig and dedupeWindowMs is clamped to at least
1000). -/
def fastConfig : RuntimeConfig :=
  { exampleConfig with
      trigger := { exampleConfig.trigger with cooldownMs := 10, dedupeWindowMs := 1000 } }

def freshState : SessionState := { sessionID := "ses1" }

def assistantEvent (id : String) : Event :=
  { type := "message.updated", infoRole := some "assistant", infoId := some id }

def textEvent (id text : String) : Event :=
  { type := "message.part.updated", partType := some "text",
    partMessageID := some id, partText := some text }

def idleEvent : Event := { type := "session.idle" }

def errorEvent : Event := { type := "session.error" }

def permissionEvent : Event := { type := "permission.asked", permissionStr := some "write" }

def permissionNotice : InterruptNotice :=
  { kind := .permission_required, eventType := "permission.asked", detail := "write" }

/-- The trace refuting claim C1: message m1 is notified, then m2, then
m1 again, with no termination or interrupt notice anywhere. -/
def c1Trace : List (Event × Int) :=
  [(assistantEvent "m1", 0), (textEvent "m1" "alpha result one", 1), (idleEvent, 100),
   (assistantEvent "m2", 101), (textEvent "m2" "beta result two", 102), (idleEvent, 200),
   (textEvent "m1" "alpha result one", 201), (idleEvent, 300)]

/-- Claim C1, counterexample: the at-most-once-per-message-id guarantee
fails as stated.  On a trace with no termination or interrupt notice,
message id m1 triggers a notification, a different message m2 triggers
one (overwriting lastNotifiedMessageId), and then m1 triggers a second
notification. -/
theorem claim_C1_counterexample :
    (∀ p ∈ c1Trace, extractInterruptNotice p.1 = none ∧
      extractTerminationNotice p.1 = none) ∧
    (processEvents fastConfig freshState c1Trace).2.map SentNotification.messageId =
      [some "m1", some "m2", some "m1"] ∧
    ((processEvents fastConfig freshState c1Trace).2.filter
      (fun r => r.messageId = some "m1")).length = 2 := by
  refine ⟨by decide, by decide, by decide⟩

/-- Claim C1 (amended): per-message dedup is keyed to the single
lastNotifiedMessageId slot.  Once message id M has been notified, no
later plain event sequence (no termination or interrupt notices)
re-notifies M until a notification for a different message id has
intervened: in the chain of notified ids prefixed with M, neighbouring
entries always differ.  (The original claim's unconditional
at-most-once-per-id reading fails, see the counterexample: after an
intervening notification for another id, the same M can be re-notified.) -/
theorem claim_C1_amended (c : RuntimeConfig) (s : SessionState)
    (events : List (Event × Int)) (M : String)
    (hreq : c.trigger.requireAssistantMessage = true)
    (hterm : s.pendingTerminationNotice = none)
    (hint : s.pendingInterruptNotice = none)
    (hM : s.lastNotifiedMessageId = some M)
    (hplain : ∀ p ∈ events, extractInterruptNotice p.1 = none ∧
      extractTerminationNotice p.1 = none) :
    List.Chain' (fun a b => a ≠ b)
      (some M :: (processEvents c s events).2.map SentNotification.messageId) := by
  have h := processEvents_plain_chain c events s hreq hterm hint hplain
  rwa [hM] at h

def c1WitnessState : SessionState :=
  { sessionID := "ses2", lastNotifiedMessageId := some "m0",
    waitingForInputReady := true, lastAssistantMessageId := some "m1",
    lastAssistantText := "all done here" }

/-- Witness for the amended claim C1 at a concrete state and trace: the
session last notified m0 delivers for the fresh id m1 on idle, never
re-notifying m0 first. -/
theorem claim_C1_amended_witness :
    List.Chain' (fun a b => a ≠ b)
      (some "m0" ::
        (processEvents exampleConfig c1WitnessState [(idleEvent, 70000)]).2.map
          SentNotification.messageId) :=
  claim_C1_amended exampleConfig c1WitnessState [(idleEvent, 70000)] "m0" rfl rfl rfl rfl
    (by decide)

/-- A session flagged as sub-agent only through its title (no child
flag). -/
def titleFlaggedState : SessionState :=
  { sessionID := "t1", sessionTitle := "review (@reviewer subagent)" }

/-- An assistant message event that also carries a specific title. -/
def retitleEvent : Event :=
  { type := "message.updated", infoRole := some "assistant", infoId := some "m1",
    titleCandidates := [some "Fix the parser bug"] }

/-- Claim C2, counterexample: the suppression is not permanent for
sessions flagged only by the sub-agent title heuristic.  A state whose
title matches the sub-agent pattern (so isSubagentSessionState holds) is
retitled by a later event with a specific non-generic title, after which
a plain ready notification is delivered — so such a session's event
stream does yield a plain ready notification. -/
theorem claim_C2_counterexample :
    isSubagentSessionState titleFlaggedState = true ∧
    titleFlaggedState.isChildSession = false ∧
    (processEvents exampleConfig titleFlaggedState
        [(retitleEvent, 0), (textEvent "m1" "work is complete", 1),
         (idleEvent, 70000)]).2.map (fun r => r.kind) =
      [NotificationKind.ready] := by
  refine ⟨by decide, rfl, by decide⟩

/-- Claim C2 (amended): for a session with the sticky structural child
flag set (isChildSession), no event sequence ever yields anything but
interrupt notifications — in particular no plain ready notification —
while notifyIfReady on a sub-agent-flagged state with a pending
interrupt notice still delivers that interrupt notification.  (For
sessions flagged only via the title heuristic the suppression holds only
while the title keeps matching, see the counterexample.) -/
theorem claim_C2_amended (c : RuntimeConfig) (s : SessionState)
    (events : List (Event × Int))
    (c2 : RuntimeConfig) (s2 : SessionState) (now2 : Int) (g2 : String)
    (i : InterruptNotice)
    (hchild : s.isChildSession = true)
    (hen2 : c2.enabled = true) (hus2 : hasUsableDiscordConfig c2 = true)
    (hsub2 : isSubagentSessionState s2 = true)
    (hi2 : s2.pendingInterruptNotice = some i)
    (hkey2 : interruptTextKey i ≠ s2.lastNotifiedTextKey ∨
             c2.trigger.dedupeWindowMs ≤ now2 - s2.lastNotifiedAt) :
    (∀ r ∈ (processEvents c s events).2, ∃ j, r.kind = NotificationKind.interrupt j) ∧
    (notifyIfReady c2 s2 now2 g2).2 =
      some { kind := .interrupt i, messageId := s2.lastAssistantMessageId,
             textKey := interruptTextKey i, sentAt := now2, triggerKind := g2 } :=
  ⟨processEvents_child c s events hchild,
   (notifyIfReady_interrupt_sends c2 s2 now2 g2 i hen2 hus2 hi2 hkey2).1⟩

def childState : SessionState := { sessionID := "child1", isChildSession := true }

def childInterruptState : SessionState :=
  { sessionID := "child2", isChildSession := true,
    pendingInterruptNotice := some permissionNotice, waitingForInputReady := true }

/-- Witness for the amended claim C2 at concrete inputs: a child session
processing an assistant message, its text and an idle trigger delivers
nothing but interrupts (here: nothing), while a child session with a
pending permission interrupt delivers it. -/
theorem claim_C2_amended_witness :
    (∀ r ∈ (processEvents exampleConfig childState
        [(assistantEvent "m1", 0), (textEvent "m1" "all done", 1),
         (idleEvent, 70000)]).2, ∃ j, r.kind = NotificationKind.interrupt j) ∧
    (notifyIfReady exampleConfig childInterruptState 100
        "interrupt: permission_required").2 =
      some { kind := .interrupt permissionNotice, messageId := none,
             textKey := interruptTextKey permissionNotice, sentAt := 100,
             triggerKind := "interrupt: permission_required" } :=
  claim_C2_amended exampleConfig childState
    [(assistantEvent "m1", 0), (textEvent "m1" "all done", 1), (idleEvent, 70000)]
    exampleConfig childInterruptState 100 "interrupt: permission_required"
    permissionNotice rfl rfl (by decide) rfl rfl (Or.inl (by decide))

/-- Claim C3: interrupts bypass the cooldown timer.  A session with a
pending interrupt notice is notified even though now - lastNotifiedAt is
strictly below cooldownMs (the dedup-window guard permitting), while any
attempt without a pending interrupt notice — plain ready or termination
notice alike — is suppressed whenever now - lastNotifiedAt <
cooldownMs. -/
theorem claim_C3_interrupt_cooldown_bypass
    (c : RuntimeConfig) (s : SessionState) (now : Int) (g : String) (i : InterruptNotice)
    (c2 : RuntimeConfig) (s2 : SessionState) (now2 : Int) (g2 : String)
    (hen : c.enabled = true) (hus : hasUsableDiscordConfig c = true)
    (hi : s.pendingInterruptNotice = some i)
    (hcool : now - s.lastNotifiedAt < c.trigger.cooldownMs)
    (hkey : interruptTextKey i ≠ s.lastNotifiedTextKey ∨
            c.trigger.dedupeWindowMs ≤ now - s.lastNotifiedAt)
    (hint2 : s2.pendingInterruptNotice = none)
    (hcool2 : now2 - s2.lastNotifiedAt < c2.trigger.cooldownMs) :
    (notifyIfReady c s now g).2 =
      some { kind := .interrupt i, messageId := s.lastAssistantMessageId,
             textKey := interruptTextKey i, sentAt := now, triggerKind := g } ∧
    (notifyIfReady c2 s2 now2 g2).2 = none :=
  ⟨(notifyIfReady_interrupt_sends c s now g i hen hus hi hkey).1,
   notifyIfReady_suppressed_none c2 s2 now2 g2 (Or.inr (Or.inl ⟨hint2, hcool2⟩))⟩

def c3InterruptState : SessionState :=
  { sessionID := "s3", pendingInterruptNotice := some permissionNotice,
    waitingForInputReady := true, lastNotifiedAt := 70000,
    lastNotifiedTextKey := "earlier delivery key" }

def c3PlainState : SessionState :=
  { sessionID := "s3b", waitingForInputReady := true,
    lastAssistantMessageId := some "m1", lastAssistantText := "all done here",
    lastNotifiedAt := 70000 }

/-- Witness for claim C3: with the default 60000 ms cooldown and the
session last notified 5 seconds earlier, the permission interrupt is
delivered immediately while a plain ready attempt at the same distance
is suppressed. -/
theorem claim_C3_interrupt_cooldown_bypass_witness :
    (notifyIfReady exampleConfig c3InterruptState 75000
        "interrupt: permission_required").2 =
      some { kind := .interrupt permissionNotice, messageId := none,
             textKey := interruptTextKey permissionNotice, sentAt := 75000,
             triggerKind := "interrupt: permission_required" } ∧
    (notifyIfReady exampleConfig c3PlainState 75000 "session.idle").2 = none :=
  claim_C3_interrupt_cooldown_bypass exampleConfig c3InterruptState 75000
    "interrupt: permission_required" permissionNotice exampleConfig c3PlainState
    75000 "session.idle" rfl (by decide) rfl (by decide) (Or.inl (by decide)) rfl
    (by decide)

/-- Claim C4: cooldown monotonicity.  If a notification is delivered at
time t1, and a further stretch of events delivers nothing, then a second
non-interrupt attempt at time t2 with t2 - t1 < cooldownMs is suppressed
by the cooldown guard. -/
theorem claim_C4_cooldown_monotonicity (c : RuntimeConfig) (s : SessionState)
    (t1 t2 : Int) (g1 g2 : String) (events : List (Event × Int))
    (h1 : ((notifyIfReady c s t1 g1).2).isSome = true)
    (hmid : (processEvents c (notifyIfReady c s t1 g1).1 events).2 = [])
    (hint2 : (processEvents c (notifyIfReady c s t1 g1).1 events).1.pendingInterruptNotice =
      none)
    (hgap : t2 - t1 < c.trigger.cooldownMs) :
    (notifyIfReady c (processEvents c (notifyIfReady c s t1 g1).1 events).1 t2 g2).2 =
      none := by
  obtain ⟨r, hr⟩ := Option.isSome_iff_exists.1 h1
  have hAt1 : (notifyIfReady c s t1 g1).1.lastNotifiedAt = t1 :=
    (notifyIfReady_sent_frame c s t1 g1 r hr).1
  have hAt2 := processEvents_noSend_lastAt c events (notifyIfReady c s t1 g1).1 hmid
  exact notifyIfReady_suppressed_none _ _ _ _
    (Or.inr (Or.inl ⟨hint2, by rw [hAt2, hAt1]; exact hgap⟩))

def c4ReadyState : SessionState :=
  { sessionID := "s4", waitingForInputReady := true,
    lastAssistantMessageId := some "m1", lastAssistantText := "all done here" }

/-- Witness for claim C4: a ready state delivers at t1 = 70000 and a
second idle attempt one millisecond later is suppressed. -/
theorem claim_C4_cooldown_monotonicity_witness :
    (notifyIfReady exampleConfig
      (processEvents exampleConfig
        (notifyIfReady exampleConfig c4ReadyState 70000 "session.idle").1 []).1
      70001 "session.idle").2 = none :=
  claim_C4_cooldown_monotonicity exampleConfig c4ReadyState 70000 70001
    "session.idle" "session.idle" [] (by decide) rfl (by decide) (by decide)

/-- Claim C5: rolling text-dedup window.  A plain attempt whose
candidate text hashes to the recorded lastNotifiedTextKey is suppressed
while now - lastNotifiedAt < dedupeWindowMs; once the window has
elapsed, an attempt with the identical dedup key and a fresh message id
(all other guards passing, in particular the cooldown) is delivered
again. -/
theorem claim_C5_rolling_text_dedup
    (c : RuntimeConfig) (s : SessionState) (now : Int) (g : String)
    (c2 : RuntimeConfig) (s2 : SessionState) (now2 : Int) (g2 : String) (m : String)
    (hterm : s.pendingTerminationNotice = none)
    (hint : s.pendingInterruptNotice = none)
    (hkey : buildTextDedupeKey s.lastAssistantText = s.lastNotifiedTextKey)
    (hne : s.lastNotifiedTextKey ≠ "")
    (hwin : now - s.lastNotifiedAt < c.trigger.dedupeWindowMs)
    (hen2 : c2.enabled = true) (hus2 : hasUsableDiscordConfig c2 = true)
    (hchild2 : isSubagentSessionState s2 = false)
    (hterm2 : s2.pendingTerminationNotice = none)
    (hint2 : s2.pendingInterruptNotice = none)
    (hwait2 : s2.waitingForInputReady = true)
    (hcool2 : c2.trigger.cooldownMs ≤ now2 - s2.lastNotifiedAt)
    (hmid2 : s2.lastAssistantMessageId = some m)
    (hnoise2 : isIntermediateAnalysisMessage s2.lastAssistantText = false)
    (hnew2 : s2.lastNotifiedMessageId ≠ some m)
    (hdeleg2 : s2.delegationMessageIds.contains m = false)
    (hsame2 : buildTextDedupeKey s2.lastAssistantText = s2.lastNotifiedTextKey)
    (hwin2 : c2.trigger.dedupeWindowMs ≤ now2 - s2.lastNotifiedAt) :
    (notifyIfReady c s now g).2 = none ∧
    (notifyIfReady c2 s2 now2 g2).2 =
      some { kind := .ready, messageId := some m,
             textKey := buildTextDedupeKey s2.lastAssistantText, sentAt := now2,
             triggerKind := g2 } := by
  constructor
  · have hkk := (notifyKind_plain s hterm hint).2
    refine notifyIfReady_suppressed_none c s now g ?_
    refine Or.inr (Or.inr (Or.inr (Or.inr (Or.inr (Or.inr ⟨?_, ?_, hwin⟩)))))
    · rw [hkk, hkey]; exact hne
    · rw [hkk]; exact hkey
  · have hkk2 := notifyKind_plain s2 hterm2 hint2
    have hsub2 : ¬(isSubagentSessionState s2 = true ∧ s2.pendingInterruptNotice = none) := by
      rintro ⟨hc, -⟩
      rw [hchild2] at hc
      exact Bool.noConfusion hc
    have hns := notifySuppressed_plain_not c2 s2 now2 m hterm2 hint2 hwait2 hcool2 hmid2
      hnoise2 hnew2 hdeleg2 (Or.inr hwin2)
    rw [notifyIfReady_send_eq c2 s2 now2 g2 hen2 hus2 hsub2 hns, notifySendUpdate_snd,
      hkk2.1, hkk2.2, hmid2]

def c5WindowState : SessionState :=
  { sessionID := "s5", waitingForInputReady := true,
    lastAssistantMessageId := some "m2", lastAssistantText := "task complete",
    lastNotifiedMessageId := some "m1", lastNotifiedTextKey := "task complete",
    lastNotifiedAt := 70000 }

/-- Witness for claim C5 with dedupeWindowMs = 15000: the identical text
10 seconds after the last delivery is suppressed; the identical text
with the fresh message id m2 70 seconds after the last delivery (window
and cooldown both elapsed) is delivered again. -/
theorem claim_C5_rolling_text_dedup_witness :
    (notifyIfReady exampleConfig c5WindowState 80000 "session.idle").2 = none ∧
    (notifyIfReady exampleConfig c5WindowState 140000 "session.idle").2 =
      some { kind := .ready, messageId := some "m2",
             textKey := buildTextDedupeKey c5WindowState.lastAssistantText,
             sentAt := 140000, triggerKind := "session.idle" } :=
  claim_C5_rolling_text_dedup exampleConfig c5WindowState 80000 "session.idle"
    exampleConfig c5WindowState 140000 "session.idle" "m2" rfl rfl (by decide)
    (by decide) (by decide) rfl (by decide) (by decide) rfl rfl (by decide)
    (by decide) (by decide) (by decide) (by decide) (by decide) (by decide)
    (by decide)

/-- The trace leading to claim C7's refuting decision point: a ready
notification at 70000, then a termination event 5 ms later whose
notification attempt the cooldown suppresses, leaving
pendingTerminationNotice set. -/
def c7Trace : List (Event × Int) :=
  [(assistantEvent "m1", 0), (textEvent "m1" "alpha done", 1), (idleEvent, 70000),
   (errorEvent, 70005)]

/-- Claim C7, counterexample: both pending notices can be active at a
notifyIfReady decision point.  After a cooldown-suppressed termination
notice, a permission event arms the interrupt notice without clearing
the termination notice; the state handed to notifyIfReady while handling
that event (interruptArm applied after the title step, exactly as in
handleEvent) carries both notices, and the notification is still
delivered. -/
theorem claim_C7_counterexample :
    extractInterruptNotice permissionEvent = some permissionNotice ∧
    (processEvents exampleConfig freshState c7Trace).1.pendingTerminationNotice =
      some { kind := .failed, detail := "session.error" } ∧
    ((interruptArm (applySessionTitle (processEvents exampleConfig freshState c7Trace).1
        permissionEvent) permissionNotice).pendingTerminationNotice ≠ none ∧
     (interruptArm (applySessionTitle (processEvents exampleConfig freshState c7Trace).1
        permissionEvent) permissionNotice).pendingInterruptNotice ≠ none) ∧
    (handleEvent exampleConfig (processEvents exampleConfig freshState c7Trace).1
        permissionEvent 70010).2.isSome = true := by
  refine ⟨by decide, by decide, ⟨by decide, by decide⟩, by decide⟩

/-- Claim C7 (amended): the pending notices are prioritised and cleared,
but not mutually exclusive.  Whenever an interrupt notice is pending —
even with a termination notice simultaneously pending — the delivered
notification is the interrupt one, and a successful delivery clears both
pending notices; in general every delivery clears both pending
notices (cleared once consumed). -/
theorem claim_C7_amended
    (c : RuntimeConfig) (s : SessionState) (now : Int) (g : String) (i : InterruptNotice)
    (c2 : RuntimeConfig) (s2 : SessionState) (now2 : Int) (g2 : String)
    (hen : c.enabled = true) (hus : hasUsableDiscordConfig c = true)
    (hi : s.pendingInterruptNotice = some i)
    (hkey : interruptTextKey i ≠ s.lastNotifiedTextKey ∨
            c.trigger.dedupeWindowMs ≤ now - s.lastNotifiedAt) :
    ((notifyIfReady c s now g).2 =
       some { kind := .interrupt i, messageId := s.lastAssistantMessageId,
              textKey := interruptTextKey i, sentAt := now, triggerKind := g } ∧
     (notifyIfReady c s now g).1.pendingTerminationNotice = none ∧
     (notifyIfReady c s now g).1.pendingInterruptNotice = none) ∧
    (∀ r, (notifyIfReady c2 s2 now2 g2).2 = some r →
      (notifyIfReady c2 s2 now2 g2).1.pendingTerminationNotice = none ∧
      (notifyIfReady c2 s2 now2 g2).1.pendingInterruptNotice = none) := by
  refine ⟨notifyIfReady_interrupt_sends c s now g i hen hus hi hkey, fun r hr => ?_⟩
  have hf := notifyIfReady_sent_frame c2 s2 now2 g2 r hr
  exact ⟨hf.2.2.1, hf.2.2.2.1⟩

def c7BothState : SessionState :=
  { sessionID := "s7", waitingForInputReady := true,
    pendingTerminationNotice := some { kind := .failed, detail := "session.error" },
    pendingInterruptNotice := some permissionNotice,
    lastNotifiedTextKey := "alpha done", lastNotifiedAt := 70000 }

/-- Witness for the amended claim C7 at a state with both notices
pending: the interrupt wins and both notices are cleared. -/
theorem claim_C7_amended_witness :
    ((notifyIfReady exampleConfig c7BothState 70010 "interrupt: permission_required").2 =
       some { kind := .interrupt permissionNotice, messageId := none,
              textKey := interruptTextKey permissionNotice, sentAt := 70010,
              triggerKind := "interrupt: permission_required" } ∧
     (notifyIfReady exampleConfig c7BothState 70010
        "interrupt: permission_required").1.pendingTerminationNotice = none ∧
     (notifyIfReady exampleConfig c7BothState 70010
        "interrupt: permission_required").1.pendingInterruptNotice = none) ∧
    (∀ r, (notifyIfReady exampleConfig c7BothState 70010
        "interrupt: permission_required").2 = some r →
      (notifyIfReady exampleConfig c7BothState 70010
        "interrupt: permission_required").1.pendingTerminationNotice = none ∧
      (notifyIfReady exampleConfig c7BothState 70010
        "interrupt: permission_required").1.pendingInterruptNotice = none) :=
  claim_C7_amended exampleConfig c7BothState 70010 "interrupt: permission_required"
    permissionNotice exampleConfig c7BothState 70010 "interrupt: permission_required"
    rfl (by decide) rfl (Or.inl (by decide))

/-- Claim C6: generic-title non-regression (monotonic improvement).
shouldApplySessionTitle(current, next) returns false exactly when the
normalized next title is empty, equals the normalized current title, is
generic while the current one is specific, or is generic alongside a
generic current one — and returns true otherwise.  In particular a
specific title is never overwritten by a generic, empty or equal one. -/
theorem claim_C6_title_non_regression (cur next : String) :
    shouldApplySessionTitle cur next = false ↔
      (normalizeSingleLine next 200 = "" ∨
       normalizeSingleLine next 200 = normalizeSingleLine cur 200 ∨
       (isGenericSessionTitle (normalizeSingleLine cur 200) = false ∧
        isGenericSessionTitle (normalizeSingleLine next 200) = true) ∨
       (isGenericSessionTitle (normalizeSingleLine cur 200) = true ∧
        isGenericSessionTitle (normalizeSingleLine next 200) = true)) := by
  simp only [shouldApplySessionTitle]
  split_ifs with h1 h2 h3 h4 h5
  · simp [h1]
  · rw [h2]
    have hge : isGenericSessionTitle "" = true := by decide
    cases hg : isGenericSessionTitle (normalizeSingleLine next 200) <;>
      simp [hg, hge, h1]
  · simp [h3]
  · rw [Bool.and_eq_true] at h4
    simp [h4.1, h4.2]
  · rw [Bool.and_eq_true, Bool.not_eq_true'] at h5
    simp [h5.1, h5.2]
  · have h3' : normalizeSingleLine next 200 ≠ normalizeSingleLine cur 200 :=
      fun hh => h3 hh.symm
    cases hgc : isGenericSessionTitle (normalizeSingleLine cur 200) <;>
      cases hgn : isGenericSessionTitle (normalizeSingleLine next 200) <;>
      simp_all

/-- Claim C8: termination classification priority.  classifyTerminationKind
lower-cases its input and tests the cancellation tier, then the
interruption/stop tier, then the generic failure tier; the first
matching tier determines the returned kind, and an empty input or an
input matching no tier yields null. -/
theorem claim_C8_termination_priority (v : String) :
    (classifyTerminationKind v = some .cancelled ↔
      lowerStr v ≠ "" ∧ matchesAnyKeyword (lowerStr v) cancellationKeywords = true) ∧
    (classifyTerminationKind v = some .interrupted ↔
      lowerStr v ≠ "" ∧ matchesAnyKeyword (lowerStr v) cancellationKeywords = false ∧
      matchesAnyKeyword (lowerStr v) interruptionKeywords = true) ∧
    (classifyTerminationKind v = some .failed ↔
      lowerStr v ≠ "" ∧ matchesAnyKeyword (lowerStr v) cancellationKeywords = false ∧
      matchesAnyKeyword (lowerStr v) interruptionKeywords = false ∧
      matchesAnyKeyword (lowerStr v) failureKeywords = true) ∧
    (classifyTerminationKind v = none ↔
      lowerStr v = "" ∨
      (matchesAnyKeyword (lowerStr v) cancellationKeywords = false ∧
       matchesAnyKeyword (lowerStr v) interruptionKeywords = false ∧
       matchesAnyKeyword (lowerStr v) failureKeywords = false)) ∧
    classifyTerminationKind "" = none := by
  refine ⟨?_, ?_, ?_, ?_, by decide⟩ <;>
    (simp only [classifyTerminationKind]; split_ifs with h0 h1 h2 h3 <;> simp_all)

/-- Claim C9, counterexample: the length bound fails at limit 0.  A
non-empty string truncated to 0 characters becomes a single ellipsis,
whose length 1 exceeds the limit. -/
theorem claim_C9_counterexample :
    truncateText "ab" 0 = "…" ∧ ¬((truncateText "ab" 0).length ≤ 0) := by
  exact ⟨rfl, by decide⟩

theorem truncateText_of_le (s : String) (n : Nat) (h : s.length ≤ n) :
    truncateText s n = s := by
  unfold truncateText
  rw [if_pos h]

/-- Claim C9 (amended): the truncation contract holds for every limit
n ≥ 1 (at n = 0 a non-empty string truncates to a lone ellipsis of
length 1, see the counterexample): truncation is idempotent, its result
length is at most n, a text within budget is returned unchanged, and an
over-budget text becomes its head cut to n-1 characters with trailing
whitespace trimmed and a single ellipsis appended. -/
theorem claim_C9_truncation_contract (s : String) (n : Nat) (h : 1 ≤ n) :
    truncateText (truncateText s n) n = truncateText s n ∧
    (truncateText s n).length ≤ n ∧
    (s.length ≤ n → truncateText s n = s) ∧
    (n < s.length →
      truncateText s n = String.mk (trimEndList (s.data.take (n - 1)) ++ ['…'])) := by
  have hlen : (truncateText s n).length ≤ n := by
    unfold truncateText
    split_ifs with hle
    · exact hle
    · show (trimEndList (s.data.take (n - 1)) ++ ['…']).length ≤ n
      have h1 : (trimEndList (s.data.take (n - 1))).length ≤ (s.data.take (n - 1)).length :=
        length_trimEndList_le _
      have h2 : (s.data.take (n - 1)).length ≤ n - 1 := by
        rw [List.length_take]
        omega
      rw [List.length_append]
      simp only [List.length_singleton]
      omega
  refine ⟨truncateText_of_le _ n hlen, hlen, fun hle => truncateText_of_le s n hle,
    fun hgt => ?_⟩
  unfold truncateText
  rw [if_neg (by omega)]

/-- Witness for the amended claim C9 at s = "hello world", n = 5. -/
theorem claim_C9_truncation_contract_witness :
    1 ≤ 5 ∧
    (truncateText (truncateText "hello world" 5) 5 = truncateText "hello world" 5 ∧
     (truncateText "hello world" 5).length ≤ 5 ∧
     (("hello world" : String).length ≤ 5 → truncateText "hello world" 5 = "hello world") ∧
     (5 < ("hello world" : String).length →
       truncateText "hello world" 5 =
         String.mk (trimEndList (("hello world" : String).data.take (5 - 1)) ++ ['…']))) :=
  ⟨by decide, claim_C9_truncation_contract "hello world" 5 (by decide)⟩

/-- Claim C10: implicit configuration clamping.  For every raw (merged)
configuration, the normalized trigger.dedupeWindowMs lies in
[1000, 300000] and message.maxChars in [300, 2000]; a non-finite-number
raw value yields the defaults 15000 and 1900; trigger.cooldownMs passes
through unclamped; a finite raw value is clamped, so out-of-range
configured values (such as a 500 ms window or a 5000-character limit)
are silently adjusted rather than honored. -/
theorem claim_C10_config_clamping (raw : RawNotifierConfig) :
    (1000 ≤ (normalizeRuntimeConfigNumeric raw).dedupeWindowMs ∧
      (normalizeRuntimeConfigNumeric raw).dedupeWindowMs ≤ 300000) ∧
    (300 ≤ (normalizeRuntimeConfigNumeric raw).maxChars ∧
      (normalizeRuntimeConfigNumeric raw).maxChars ≤ 2000) ∧
    (normalizeRuntimeConfigNumeric
      { raw with triggerDedupeWindowMs := .missing }).dedupeWindowMs = 15000 ∧
    (normalizeRuntimeConfigNumeric
      { raw with triggerDedupeWindowMs := .nonNumber }).dedupeWindowMs = 15000 ∧
    (normalizeRuntimeConfigNumeric
      { raw with messageMaxChars := .missing }).maxChars = 1900 ∧
    (normalizeRuntimeConfigNumeric
      { raw with messageMaxChars := .nonNumber }).maxChars = 1900 ∧
    (∀ n : Int, (normalizeRuntimeConfigNumeric
      { raw with triggerCooldownMs := .number n }).cooldownMs = n) ∧
    (∀ n : Int, (normalizeRuntimeConfigNumeric
      { raw with triggerDedupeWindowMs := .number n }).dedupeWindowMs =
        min (max 1000 n) 300000) ∧
    (∀ n : Int, (normalizeRuntimeConfigNumeric
      { raw with messageMaxChars := .number n }).maxChars = min (max 300 n) 2000) ∧
    (normalizeRuntimeConfigNumeric
      { raw with triggerDedupeWindowMs := .number 500 }).dedupeWindowMs = 1000 ∧
    (normalizeRuntimeConfigNumeric
      { raw with triggerDedupeWindowMs := .number 500 }).dedupeWindowMs ≠ 500 ∧
    (normalizeRuntimeConfigNumeric
      { raw with messageMaxChars := .number 5000 }).maxChars = 2000 ∧
    (normalizeRuntimeConfigNumeric
      { raw with messageMaxChars := .number 5000 }).maxChars ≠ 5000 := by
  obtain ⟨cm, dw, mc⟩ := raw
  refine ⟨?_, ?_, rfl, rfl, rfl, rfl, fun n => rfl, fun n => rfl, fun n => rfl,
    by norm_num [normalizeRuntimeConfigNumeric, ConfigValue.finiteNumber?],
    by norm_num [normalizeRuntimeConfigNumeric, ConfigValue.finiteNumber?],
    by norm_num [normalizeRuntimeConfigNumeric, ConfigValue.finiteNumber?,
      DISCORD_CONTENT_LIMIT],
    by norm_num [normalizeRuntimeConfigNumeric, ConfigValue.finiteNumber?,
      DISCORD_CONTENT_LIMIT]⟩
  · cases dw <;>
      simp [normalizeRuntimeConfigNumeric, ConfigValue.finiteNumber?] <;> omega
  · cases mc <;>
      simp [normalizeRuntimeConfigNumeric, ConfigValue.finiteNumber?,
        DISCORD_CONTENT_LIMIT] <;> omega

end Claims

end OpenCodeNotifier
